import Mathlib

/-!
Verification of the Runeforge selection engine against its specification.

The Rust sources under `src/` are shallowly embedded: `f64` values are
modelled as exact rationals (`ℚ`), machine integers as `Nat` with explicit
reduction modulo 2^w where overflow matters, fallible Rust functions
(`Result`) as `Except String`, and the one `panic!` path (the tie breaker
on an empty list) as `Option.none`.  External crates are handled as
follows: the `sha2` crate's SHA-256 is implemented bit-for-bit below; the
`rand` crate's seeded uniform generator and the serde serializers are
modelled (each such definition carries a doc comment saying so).
-/

namespace Runeforge

attribute [local semireducible] Rat.add Rat.mul Rat.inv Rat.sub Rat.ofScientific

/-- Reduction of a `Nat` to 32 bits, the working width of SHA-256. -/
def m32 (x : Nat) : Nat := x % 4294967296

/-- Rotate a 32-bit word right by `n` bits. -/
def rotr32 (x n : Nat) : Nat := ((x >>> n) ||| (x <<< (32 - n))) % 4294967296

/-- SHA-256 round constants of FIPS 180-4 (the fractional parts of the
cube roots of the first 64 primes), written in decimal. -/
def shaK : List Nat :=
  [1116352408, 1899447441, 3049323471, 3921009573, 961987163,
   1508970993, 2453635748, 2870763221, 3624381080, 310598401,
   607225278, 1426881987, 1925078388, 2162078206, 2614888103,
   3248222580, 3835390401, 4022224774, 264347078, 604807628,
   770255983, 1249150122, 1555081692, 1996064986, 2554220882,
   2821834349, 2952996808, 3210313671, 3336571891, 3584528711,
   113926993, 338241895, 666307205, 773529912, 1294757372,
   1396182291, 1695183700, 1986661051, 2177026350, 2456956037,
   2730485921, 2820302411, 3259730800, 3345764771, 3516065817,
   3600352804, 4094571909, 275423344, 430227734, 506948616,
   659060556, 883997877, 958139571, 1322822218, 1537002063,
   1747873779, 1955562222, 2024104815, 2227730452, 2361852424,
   2428436474, 2756734187, 3204031479, 3329325298]

/-- SHA-256 working state: eight 32-bit words. -/
structure Sha8 where
  a : Nat
  b : Nat
  c : Nat
  d : Nat
  e : Nat
  f : Nat
  g : Nat
  h : Nat
deriving DecidableEq

/-- SHA-256 initial hash value of FIPS 180-4 (the fractional parts of
the square roots of the first 8 primes), written in decimal. -/
def sha8Init : Sha8 :=
  ⟨1779033703, 3144134277, 1013904242, 2773480762,
   1359893119, 2600822924, 528734635, 1541459225⟩

/-- Upper-case sigma-0 of SHA-256. -/
def bigS0 (x : Nat) : Nat := rotr32 x 2 ^^^ rotr32 x 13 ^^^ rotr32 x 22

/-- Upper-case sigma-1 of SHA-256. -/
def bigS1 (x : Nat) : Nat := rotr32 x 6 ^^^ rotr32 x 11 ^^^ rotr32 x 25

/-- Lower-case sigma-0 of SHA-256. -/
def smallS0 (x : Nat) : Nat := rotr32 x 7 ^^^ rotr32 x 18 ^^^ (x >>> 3)

/-- Lower-case sigma-1 of SHA-256. -/
def smallS1 (x : Nat) : Nat := rotr32 x 17 ^^^ rotr32 x 19 ^^^ (x >>> 10)

/-- Choice function of SHA-256; the complement is taken within 32 bits. -/
def chV (x y z : Nat) : Nat := (x &&& y) ^^^ ((x ^^^ 0xffffffff) &&& z)

/-- Majority function of SHA-256. -/
def majV (x y z : Nat) : Nat := (x &&& y) ^^^ (x &&& z) ^^^ (y &&& z)

/-- Extend a 16-word message block to the 64-word SHA-256 schedule. -/
def extendW : Nat → Array Nat → Array Nat
  | 0, w => w
  | n + 1, w =>
    let s := w.size
    let nw := m32 (smallS1 (w.getD (s - 2) 0) + w.getD (s - 7) 0 +
                   smallS0 (w.getD (s - 15) 0) + w.getD (s - 16) 0)
    extendW n (w.push nw)

/-- One SHA-256 round: absorb a round constant paired with a schedule word. -/
def roundStep (st : Sha8) (kw : Nat × Nat) : Sha8 :=
  let t1 := m32 (st.h + bigS1 st.e + chV st.e st.f st.g + kw.1 + kw.2)
  let t2 := m32 (bigS0 st.a + majV st.a st.b st.c)
  ⟨m32 (t1 + t2), st.a, st.b, st.c, m32 (st.d + t1), st.e, st.f, st.g⟩

/-- Compress one 16-word block into the running hash state. -/
def compressBlock (hs : Sha8) (block : List Nat) : Sha8 :=
  let w := extendW 48 block.toArray
  let fin := (shaK.zip w.toList).foldl roundStep hs
  ⟨m32 (hs.a + fin.a), m32 (hs.b + fin.b), m32 (hs.c + fin.c), m32 (hs.d + fin.d),
   m32 (hs.e + fin.e), m32 (hs.f + fin.f), m32 (hs.g + fin.g), m32 (hs.h + fin.h)⟩

/-- Group a byte list into 32-bit big-endian words. -/
def bytesToWords : List Nat → List Nat
  | b0 :: b1 :: b2 :: b3 :: rest => (((b0 * 256 + b1) * 256 + b2) * 256 + b3) :: bytesToWords rest
  | _ => []

/-- Split a list into chunks of `n`; `fuel` bounds the recursion structurally. -/
def chunksOf (n : Nat) : Nat → List Nat → List (List Nat)
  | _, [] => []
  | 0, l => [l]
  | fuel + 1, l => l.take n :: chunksOf n fuel (l.drop n)

/-- Big-endian bytes of a 64-bit quantity. -/
def be8 (x : Nat) : List Nat :=
  [(x >>> 56) % 256, (x >>> 48) % 256, (x >>> 40) % 256, (x >>> 32) % 256,
   (x >>> 24) % 256, (x >>> 16) % 256, (x >>> 8) % 256, x % 256]

/-- Big-endian bytes of one 32-bit word. -/
def wordBE (w : Nat) : List Nat := [(w >>> 24) % 256, (w >>> 16) % 256, (w >>> 8) % 256, w % 256]

/-- SHA-256 of a byte string, as 32 bytes (the `sha2` crate used by the source). -/
def sha256 (msg : List Nat) : List Nat :=
  let len := msg.length
  let padZeros := (64 - ((len + 9) % 64)) % 64
  let padded := msg ++ [0x80] ++ List.replicate padZeros 0 ++ be8 (len * 8)
  let blocks := (chunksOf 64 padded.length padded).map bytesToWords
  let fin := blocks.foldl compressBlock sha8Init
  [fin.a, fin.b, fin.c, fin.d, fin.e, fin.f, fin.g, fin.h].flatMap wordBE

/-- UTF-8 encoding of one character, as bytes. -/
def charUtf8 (c : Char) : List Nat :=
  let n := c.toNat
  if n < 0x80 then [n]
  else if n < 0x800 then [0xc0 ||| (n >>> 6), 0x80 ||| (n &&& 0x3f)]
  else if n < 0x10000 then
    [0xe0 ||| (n >>> 12), 0x80 ||| ((n >>> 6) &&& 0x3f), 0x80 ||| (n &&& 0x3f)]
  else
    [0xf0 ||| (n >>> 18), 0x80 ||| ((n >>> 12) &&& 0x3f),
     0x80 ||| ((n >>> 6) &&& 0x3f), 0x80 ||| (n &&& 0x3f)]

/-- UTF-8 bytes of a string (Rust's `str::as_bytes`). -/
def strBytes (s : String) : List Nat := s.toList.flatMap charUtf8

/-- Little-endian bytes of a `u64` value (Rust's `u64::to_le_bytes`). -/
def u64le (x : Nat) : List Nat :=
  [x % 256, (x >>> 8) % 256, (x >>> 16) % 256, (x >>> 24) % 256,
   (x >>> 32) % 256, (x >>> 40) % 256, (x >>> 48) % 256, (x >>> 56) % 256]

/-- Read a byte list as a little-endian integer (Rust's `u64::from_le_bytes`). -/
def leU64 (bs : List Nat) : Nat := bs.foldr (fun b acc => acc * 256 + b) 0

/-- Hexadecimal digit for a value below 16. -/
def hexChar (n : Nat) : Char := if n < 10 then Char.ofNat (48 + n) else Char.ofNat (87 + n)

/-- Lowercase hex encoding of a byte list (the `hex` crate used by the source). -/
def hexEncode (bs : List Nat) : String :=
  (bs.flatMap (fun b => [hexChar (b / 16), hexChar (b % 16)])).asString

set_option maxRecDepth 10000 in
example : hexEncode (sha256 (strBytes "abc")) =
    "ba7816bf8f01cfea414140de5dae2223b00361a396177a9cb410ff61f20015ad" := by decide

/-- Model of the external `rand` crate's seeded uniform generator
(`StdRng::seed_from_u64(topic_seed)` followed by `rng.gen_range(0..len)` in
`util.rs`): a deterministic index below `n` derived from the 64-bit topic
seed.  The spec requires only a deterministic uniform index derived from
that seed; the ChaCha-based bit stream of `StdRng` is abstracted to the
canonical in-range reduction. -/
def rngIndex (seed n : Nat) : Nat := seed % n

/-- The tie breaker of `util.rs`: hash the topic bytes followed by the
little-endian seed bytes with SHA-256, read the first 8 digest bytes as a
little-endian 64-bit topic seed, and index into the candidate list with the
seeded generator.  The `panic!` on an empty candidate list is modelled as
`none`; every other path returns `some`. -/
def tie_breaker (topic : String) (seed : Nat) (candidates : List String) : Option String :=
  if candidates.isEmpty then
    none
  else if candidates.length = 1 then
    some (candidates.headD "")
  else
    let topicHash := sha256 (strBytes topic ++ u64le seed)
    let topicSeed := leU64 (topicHash.take 8)
    let index := rngIndex topicSeed candidates.length
    candidates.get? index

/-- Blueprint hash of `util.rs`: an algorithm-tagged hex SHA-256 of the
serialized blueprint. -/
def calculate_blueprint_hash (content : String) : String :=
  "sha256:" ++ hexEncode (sha256 (strBytes content))

/-- Plan hash of `util.rs`: an algorithm-tagged hex SHA-256 of the
serialized plan. -/
def calculate_plan_hash (planJson : String) : String :=
  "sha256:" ++ hexEncode (sha256 (strBytes planJson))

/-- Model of Rust's `str::split` with a non-empty separator (used on
`", "` in `selector.rs`): split at every non-overlapping occurrence,
left to right.  The recursion is bounded structurally by a fuel equal to
the input length. -/
def splitOnAuxModel (sep : List Char) : Nat → List Char → List Char → List (List Char)
  | _, [], acc => [acc.reverse]
  | 0, s, acc => [acc.reverse ++ s]
  | fuel + 1, ch :: rest, acc =>
    if sep.isPrefixOf (ch :: rest) then
      acc.reverse :: splitOnAuxModel sep fuel (List.drop (sep.length - 1) rest) []
    else
      splitOnAuxModel sep fuel rest (ch :: acc)

/-- String-level wrapper of `splitOnAuxModel`. -/
def splitOnModel (s sep : String) : List String :=
  if sep.isEmpty then [s]
  else (splitOnAuxModel sep.toList (s.toList.length + 1) s.toList []).map List.asString

example : splitOnModel "OpenAI, Claude" ", " = ["OpenAI", "Claude"] := by decide
example : splitOnModel "RuneSage" ", " = ["RuneSage"] := by decide

/-! The data model of `schema.rs` and `selector.rs`.  `f64` fields are
modelled as exact rationals. -/

/-- Scoring weights (`selector.rs`). -/
structure Weights where
  quality : ℚ
  slo : ℚ
  cost : ℚ
  security : ℚ
  ops : ℚ
deriving DecidableEq

/-- Per-candidate metrics (`selector.rs`). -/
structure Metrics where
  quality : ℚ
  slo : ℚ
  cost : ℚ
  security : ℚ
  ops : ℚ
deriving DecidableEq

/-- Inter-category requirement of a candidate (`selector.rs`). -/
structure Requirements where
  language : Option String
deriving DecidableEq

/-- A technology candidate (`selector.rs`). -/
structure Candidate where
  name : String
  requires : Option Requirements
  persistence : Option String
  metrics : Metrics
  regions : List String
  monthly_cost_base : ℚ
  notes : List String
deriving DecidableEq

/-- Candidate lists for the nine fixed categories (`selector.rs`). -/
structure CandidateCategories where
  language : List Candidate
  backend : List Candidate
  frontend : List Candidate
  database : List Candidate
  cache : List Candidate
  queue : List Candidate
  ai : List Candidate
  infra : List Candidate
  ci_cd : List Candidate
deriving DecidableEq

/-- The rules document (`selector.rs`); the compliance-requirements map is
not read by the selection engine and is omitted. -/
structure Rules where
  version : Int
  weights : Weights
  candidates : CandidateCategories
deriving DecidableEq

/-- Persistence kind requested by a blueprint (`schema.rs`). -/
inductive PersistenceType
  | kv
  | sql
  | both
deriving DecidableEq

/-- Compliance kinds (`schema.rs`). -/
inductive ComplianceType
  | auditLog
  | sbom
  | pci
  | sox
  | hipaa
deriving DecidableEq, BEq

/-- Single-language restriction (`schema.rs`). -/
inductive LanguageMode
  | rust
  | go
  | ts
deriving DecidableEq

/-- Blueprint constraints (`schema.rs`). -/
structure Constraints where
  monthly_cost_usd_max : Option ℚ
  persistence : Option PersistenceType
  region_allow : Option (List String)
  compliance : Option (List ComplianceType)
deriving DecidableEq

/-- Traffic profile (`schema.rs`). -/
structure TrafficProfile where
  rps_peak : ℚ
  global : Bool
  latency_sensitive : Bool
deriving DecidableEq

/-- Per-category preference lists (`schema.rs`). -/
structure Preferences where
  frontend : Option (List String)
  backend : Option (List String)
  database : Option (List String)
  ai : Option (List String)
deriving DecidableEq

/-- The blueprint input (`schema.rs`). -/
structure Blueprint where
  project_name : String
  goals : List String
  constraints : Constraints
  traffic_profile : TrafficProfile
  prefs : Option Preferences
  single_language_mode : Option LanguageMode
deriving DecidableEq

/-- A per-category decision (`schema.rs`). -/
structure Decision where
  topic : String
  choice : String
  reasons : List String
  alternatives : List String
  score : ℚ
deriving DecidableEq

/-- The resolved stack (`schema.rs`); the optional `services` field is
never set by the selector. -/
structure Stack where
  language : String
  services : Option (List String)
  frontend : String
  backend : String
  database : String
  cache : String
  queue : String
  ai : List String
  infra : String
  ci_cd : String
deriving DecidableEq

/-- Cost estimate (`schema.rs`). -/
structure Estimated where
  monthly_cost_usd : ℚ
  egress_gb : Option ℚ
  notes : Option (List String)
deriving DecidableEq

/-- Plan metadata (`schema.rs`).  The seed, a `u64` cast to `i64` in the
source, is modelled as the underlying `Nat`. -/
structure Meta where
  seed : Nat
  blueprint_hash : String
  plan_hash : String
deriving DecidableEq

/-- The full output plan (`schema.rs`). -/
structure StackPlan where
  decisions : List Decision
  stack : Stack
  estimated : Estimated
  meta : Meta
deriving DecidableEq

/-- The selection engine value (`selector.rs`): parsed rules plus a seed. -/
structure Selector where
  rules : Rules
  seed : Nat
deriving DecidableEq

/-! Model of `serde_json::to_string` for the blueprint and the plan.
Field order follows the struct declarations, `None` options are skipped
exactly where the source marks `skip_serializing_if`, and numeric
formatting is abstracted to the rational printer.  No theorem below
depends on concrete hash strings, only on the serialization being a
function of its input. -/

/-- JSON string literal (escaping abstracted). -/
def jstr (s : String) : String := "\"" ++ s ++ "\""

/-- JSON number from a rational. -/
def jnum (q : ℚ) : String := toString q

/-- JSON boolean. -/
def jbool (b : Bool) : String := if b then "true" else "false"

/-- JSON array from serialized items. -/
def jarr (items : List String) : String := "[" ++ String.intercalate "," items ++ "]"

/-- JSON object from serialized fields. -/
def jobj (fields : List (String × String)) : String :=
  "\x7b" ++ String.intercalate "," (fields.map (fun f => jstr f.1 ++ ":" ++ f.2)) ++ "\x7d"

/-- Optional JSON field, omitted when the value is absent. -/
def jopt (name : String) (v : Option String) : List (String × String) :=
  match v with
  | some s => [(name, s)]
  | none => []

/-- Serde tag of a persistence kind (`rename_all = "lowercase"`). -/
def persistenceTag (p : PersistenceType) : String :=
  match p with
  | .kv => "kv"
  | .sql => "sql"
  | .both => "both"

/-- Serde tag of a compliance kind (`rename_all = "kebab-case"`). -/
def complianceTag (c : ComplianceType) : String :=
  match c with
  | .auditLog => "audit-log"
  | .sbom => "sbom"
  | .pci => "pci"
  | .sox => "sox"
  | .hipaa => "hipaa"

/-- Serde tag of a language mode (`rename_all = "lowercase"`). -/
def languageModeTag (m : LanguageMode) : String :=
  match m with
  | .rust => "rust"
  | .go => "go"
  | .ts => "ts"

/-- Display name of a language mode as used by `select_language`. -/
def languageModeName (m : LanguageMode) : String :=
  match m with
  | .rust => "Rust"
  | .go => "Go"
  | .ts => "TypeScript"

/-- Serialization of the constraints object. -/
def constraintsJson (c : Constraints) : String :=
  jobj (jopt "monthly_cost_usd_max" (c.monthly_cost_usd_max.map jnum) ++
        jopt "persistence" (c.persistence.map (fun p => jstr (persistenceTag p))) ++
        jopt "region_allow" (c.region_allow.map (fun rs => jarr (rs.map jstr))) ++
        jopt "compliance" (c.compliance.map (fun cs => jarr (cs.map (fun x => jstr (complianceTag x))))))

/-- Serialization of the traffic profile. -/
def trafficJson (t : TrafficProfile) : String :=
  jobj [("rps_peak", jnum t.rps_peak), ("global", jbool t.global),
        ("latency_sensitive", jbool t.latency_sensitive)]

/-- Serialization of the preference lists. -/
def prefsJson (p : Preferences) : String :=
  jobj (jopt "frontend" (p.frontend.map (fun l => jarr (l.map jstr))) ++
        jopt "backend" (p.backend.map (fun l => jarr (l.map jstr))) ++
        jopt "database" (p.database.map (fun l => jarr (l.map jstr))) ++
        jopt "ai" (p.ai.map (fun l => jarr (l.map jstr))))

/-- Serialization of a blueprint (`serde_json::to_string(blueprint)`). -/
def blueprintJson (bp : Blueprint) : String :=
  jobj ([("project_name", jstr bp.project_name),
         ("goals", jarr (bp.goals.map jstr)),
         ("constraints", constraintsJson bp.constraints),
         ("traffic_profile", trafficJson bp.traffic_profile)] ++
        jopt "prefs" (bp.prefs.map prefsJson) ++
        jopt "single_language_mode" (bp.single_language_mode.map (fun m => jstr (languageModeTag m))))

/-- Serialization of one decision. -/
def decisionJson (d : Decision) : String :=
  jobj [("topic", jstr d.topic), ("choice", jstr d.choice),
        ("reasons", jarr (d.reasons.map jstr)),
        ("alternatives", jarr (d.alternatives.map jstr)),
        ("score", jnum d.score)]

/-- Serialization of the resolved stack. -/
def stackJson (st : Stack) : String :=
  jobj ([("language", jstr st.language)] ++
        jopt "services" (st.services.map (fun l => jarr (l.map jstr))) ++
        [("frontend", jstr st.frontend), ("backend", jstr st.backend),
         ("database", jstr st.database), ("cache", jstr st.cache),
         ("queue", jstr st.queue), ("ai", jarr (st.ai.map jstr)),
         ("infra", jstr st.infra), ("ci_cd", jstr st.ci_cd)])

/-- Serialization of a full plan (`serde_json::to_string(&plan)`). -/
def planJson (p : StackPlan) : String :=
  jobj [("decisions", jarr (p.decisions.map decisionJson)),
        ("stack", stackJson p.stack),
        ("estimated", jobj ([("monthly_cost_usd", jnum p.estimated.monthly_cost_usd)] ++
          jopt "egress_gb" (p.estimated.egress_gb.map jnum) ++
          jopt "notes" (p.estimated.notes.map (fun l => jarr (l.map jstr))))),
        ("meta", jobj [("seed", jnum p.meta.seed), ("blueprint_hash", jstr p.meta.blueprint_hash),
                       ("plan_hash", jstr p.meta.plan_hash)])]

/-! The selection engine of `selector.rs`. -/

/-- Descending-by-key ordering used to model Rust's stable `sort_by` with
the comparator `b.score.partial_cmp(&a.score)`. -/
def keyDescRel {α : Type} (key : α → ℚ) : α → α → Prop := fun a b => key b ≤ key a

instance {α : Type} (key : α → ℚ) : DecidableRel (keyDescRel key) :=
  fun a b => inferInstanceAs (Decidable (key b ≤ key a))

instance {α : Type} (key : α → ℚ) : IsTotal α (keyDescRel key) :=
  ⟨fun a b => le_total (key b) (key a)⟩

instance {α : Type} (key : α → ℚ) : IsTrans α (keyDescRel key) :=
  ⟨fun _ _ _ h1 h2 => le_trans h2 h1⟩

/-- Model of Rust's `sort_by` with a descending score comparator.  Rust's
`sort_by` is a stable sort; a stable sort under a total preorder has a
unique result, so the stable insertion sort used here agrees with it. -/
def sortByDesc {α : Type} (key : α → ℚ) (l : List α) : List α :=
  List.insertionSort (keyDescRel key) l

/-- Placeholder candidate used only as the default of total list accesses
whose partiality in the source is `unwrap`/indexing; the surrounding code
never reaches the default (proved where it matters). -/
def defaultCandidate : Candidate :=
  { name := "", requires := none, persistence := none,
    metrics := { quality := 0, slo := 0, cost := 0, security := 0, ops := 0 },
    regions := [], monthly_cost_base := 0, notes := [] }

/-- Hard-constraint check of `Selector::check_constraints`: region
allow-list and per-candidate cost cap. -/
def Selector.check_constraints (_s : Selector) (c : Candidate) (bp : Blueprint) : Bool :=
  (match bp.constraints.region_allow with
   | some allowed => c.regions.any (fun r => r == "*" || r == "global" || allowed.contains r)
   | none => true) &&
  (match bp.constraints.monthly_cost_usd_max with
   | some maxCost => decide (c.monthly_cost_base ≤ maxCost)
   | none => true)

/-- Weighted score of `Selector::calculate_score`. -/
def Selector.calculate_score (s : Selector) (m : Metrics) (bp : Blueprint) : ℚ :=
  let w := s.rules.weights
  let base := w.quality * m.quality + w.slo * m.slo + w.cost * m.cost +
              w.security * m.security + w.ops * m.ops
  let base := if bp.traffic_profile.latency_sensitive then base + 0.1 * m.slo else base
  let base := if bp.traffic_profile.global then base + 0.05 * m.ops else base
  base / 1.15

/-- Preference-list dispatch inside `Selector::select_best` (the `match
topic` over the four preference-bearing categories). -/
def prefsFor (prefs : Preferences) (topic : String) : Option (List String) :=
  match topic with
  | "frontend" => prefs.frontend
  | "backend" => prefs.backend
  | "database" => prefs.database
  | "ai" => prefs.ai
  | _ => none

/-- Soft preference filtering step of `Selector::select_best`: restrict to
the preferred names when that intersection is non-empty, otherwise keep
the full set. -/
def applyPrefs (bp : Blueprint) (topic : String) (filtered : List Candidate) : List Candidate :=
  match bp.prefs with
  | some prefs =>
    match prefsFor prefs topic with
    | some pref_names =>
      let preferred := filtered.filter (fun c => pref_names.contains c.name)
      if preferred.isEmpty then filtered else preferred
    | none => filtered
  | none => filtered

/-- Constraint- and preference-filtered pool of `Selector::select_best`. -/
def Selector.sbPool (s : Selector) (topic : String) (candidates : List Candidate)
    (bp : Blueprint) : List Candidate :=
  applyPrefs bp topic (candidates.filter (fun c => s.check_constraints c bp))

/-- Scored and descending-sorted pool of `Selector::select_best`. -/
def Selector.sbSorted (s : Selector) (topic : String) (candidates : List Candidate)
    (bp : Blueprint) : List (Candidate × ℚ) :=
  sortByDesc (fun x => x.2)
    ((s.sbPool topic candidates bp).map (fun c => (c, s.calculate_score c.metrics bp)))

/-- Names tied with the top score (difference below 0.001), in sorted
order, as gathered by `Selector::select_best`. -/
def Selector.sbTied (s : Selector) (topic : String) (candidates : List Candidate)
    (bp : Blueprint) : List String :=
  let sorted := s.sbSorted topic candidates bp
  let top := (sorted.headD (defaultCandidate, 0)).2
  (sorted.filter (fun x => |x.2 - top| < 0.001)).map (fun x => x.1.name)

/-- Reason strings built by `Selector::select_best`, in source priority
order, with the generic fallback when none fired. -/
def sbReasons (topic : String) (language : Option String) (bp : Blueprint)
    (chosen : Candidate × ℚ) : List String :=
  let rs :=
    (match language with
     | some lang => if topic == "backend" then ["Compatible with " ++ lang ++ " language"] else []
     | none => []) ++
    (if (0.8 : ℚ) < chosen.2 then ["High overall score across all metrics"] else []) ++
    (if bp.traffic_profile.latency_sensitive ∧ (0.85 : ℚ) < chosen.1.metrics.slo then
      ["Excellent performance for latency-sensitive workload"] else []) ++
    (match bp.constraints.compliance with
     | some cts =>
       if cts.isEmpty then []
       else
         (if (0.85 : ℚ) < chosen.1.metrics.security then
           ["Strong security features for compliance requirements"] else []) ++
         (if cts.contains ComplianceType.hipaa then
           ["HIPAA-compliant infrastructure support"] else []) ++
         (if cts.contains ComplianceType.sox then
           ["SOX compliance with audit trail capabilities"] else [])
     | none => []) ++
    (match chosen.1.notes.head? with
     | some n => [n]
     | none => [])
  if rs.isEmpty then ["Selected based on optimal " ++ topic ++ " score"] else rs

/-- Chosen name of `Selector::select_best`: the seeded tie break when more
than one candidate is tied at the top, the sorted head otherwise. -/
def Selector.sbChoice (s : Selector) (topic : String) (candidates : List Candidate)
    (bp : Blueprint) : String :=
  if (s.sbTied topic candidates bp).length > 1 then
    (tie_breaker topic s.seed (s.sbTied topic candidates bp)).getD ""
  else ((s.sbSorted topic candidates bp).headD (defaultCandidate, 0)).1.name

/-- Chosen scored candidate of `Selector::select_best` (the source's
`find` + `unwrap`, modelled with a default that is provably never
reached on the success path). -/
def Selector.sbChosen (s : Selector) (topic : String) (candidates : List Candidate)
    (bp : Blueprint) : Candidate × ℚ :=
  ((s.sbSorted topic candidates bp).find?
      (fun x => x.1.name == s.sbChoice topic candidates bp)).getD
    ((s.sbSorted topic candidates bp).headD (defaultCandidate, 0))

/-- Core per-category selection (`Selector::select_best`): filter, score,
sort, break ties with the seeded tie breaker, and build the decision. -/
def Selector.select_best (s : Selector) (topic : String) (candidates : List Candidate)
    (bp : Blueprint) (language : Option String) : Except String Decision :=
  if (s.sbPool topic candidates bp).isEmpty then
    .error ("No suitable " ++ topic ++ " candidates found")
  else
    .ok { topic := topic, choice := s.sbChoice topic candidates bp,
          reasons := sbReasons topic language bp (s.sbChosen topic candidates bp),
          alternatives := (((s.sbSorted topic candidates bp).filter
              (fun x => x.1.name != s.sbChoice topic candidates bp)).take 3).map
            (fun x => x.1.name),
          score := (s.sbChosen topic candidates bp).2 }

/-- Language pool of `Selector::select_language`: restricted to the single
language mode's name when the blueprint sets one. -/
def languagePool (r : Rules) (bp : Blueprint) : List Candidate :=
  match bp.single_language_mode with
  | some mode => r.candidates.language.filter (fun c => c.name == languageModeName mode)
  | none => r.candidates.language

/-- Language selection (`Selector::select_language`). -/
def Selector.select_language (s : Selector) (bp : Blueprint) : Except String Decision :=
  s.select_best "language" (languagePool s.rules bp) bp none

/-- Database pool of `Selector::select_database`: when the blueprint
requests a persistence kind, keep exactly the candidates whose tag is
string-equal to it; untagged candidates are dropped. -/
def databasePool (r : Rules) (bp : Blueprint) : List Candidate :=
  match bp.constraints.persistence with
  | some p =>
    r.candidates.database.filter (fun c =>
      match c.persistence with
      | some t => t == persistenceTag p
      | none => false)
  | none => r.candidates.database

/-- Database selection (`Selector::select_database`). -/
def Selector.select_database (s : Selector) (bp : Blueprint) : Except String Decision :=
  s.select_best "database" (databasePool s.rules bp) bp none

/-- Scored, admissible AI candidates of `Selector::select_ai`, sorted by
descending score: `(name, score)` pairs. -/
def Selector.aiRanked (s : Selector) (bp : Blueprint) : List (String × ℚ) :=
  sortByDesc (fun x => x.2)
    ((s.rules.candidates.ai.filter (fun c => s.check_constraints c bp)).map
      (fun c => (c.name, s.calculate_score c.metrics bp)))

/-- AI selection (`Selector::select_ai`): the top two ranked names joined
with `", "`, the next two as alternatives, and the single top score. -/
def Selector.select_ai (s : Selector) (bp : Blueprint) : Except String Decision :=
  let sorted := s.aiRanked bp
  if sorted.isEmpty then
    .error "No suitable AI candidates found"
  else
    .ok { topic := "ai",
          choice := String.intercalate ", " ((sorted.take 2).map (fun x => x.1)),
          reasons := ["Selected based on quality and cost balance",
                      "Multiple AI providers for redundancy"],
          alternatives := ((sorted.drop 2).take 2).map (fun x => x.1),
          score := (sorted.headD ("", 0)).2 }

/-- Category dispatch of `Selector::select_component`: the six topics it
accepts, `none` for the default error branch. -/
def componentList (r : Rules) (topic : String) : Option (List Candidate) :=
  match topic with
  | "backend" => some r.candidates.backend
  | "frontend" => some r.candidates.frontend
  | "cache" => some r.candidates.cache
  | "queue" => some r.candidates.queue
  | "infra" => some r.candidates.infra
  | "ci_cd" => some r.candidates.ci_cd
  | _ => none

/-- Language-dependency pre-filter of `Selector::select_component`:
candidates declaring a required language must match the already-chosen
one; candidates declaring none always pass. -/
def langFilter (candidates : List Candidate) (language : Option String) : List Candidate :=
  match language with
  | some lang =>
    candidates.filter (fun c =>
      match c.requires with
      | some req =>
        match req.language with
        | some l => l == lang
        | none => true
      | none => true)
  | none => candidates

/-- Generic component selection (`Selector::select_component`). -/
def Selector.select_component (s : Selector) (topic : String) (bp : Blueprint)
    (language : Option String) : Except String Decision :=
  match componentList s.rules topic with
  | none => .error ("Unknown component type: " ++ topic)
  | some candidates => s.select_best topic (langFilter candidates language) bp language

/-- Category dispatch of `Selector::get_component_cost` (eight categories;
anything else costs 0, in particular the language category). -/
def costList (r : Rules) (category : String) : Option (List Candidate) :=
  match category with
  | "backend" => some r.candidates.backend
  | "frontend" => some r.candidates.frontend
  | "database" => some r.candidates.database
  | "cache" => some r.candidates.cache
  | "queue" => some r.candidates.queue
  | "ai" => some r.candidates.ai
  | "infra" => some r.candidates.infra
  | "ci_cd" => some r.candidates.ci_cd
  | _ => none

/-- Base monthly cost lookup (`Selector::get_component_cost`): first
candidate with the given name, 0 when absent. -/
def Selector.get_component_cost (s : Selector) (category name : String) : ℚ :=
  match costList s.rules category with
  | none => 0
  | some cands =>
    match cands.find? (fun c => c.name == name) with
    | some c => c.monthly_cost_base
    | none => 0

/-- The nine per-category decisions produced by one `select` call, in the
fixed resolution order of the source. -/
structure Components where
  language : Decision
  backend : Decision
  frontend : Decision
  database : Decision
  cache : Decision
  queue : Decision
  ai : Decision
  infra : Decision
  ci_cd : Decision
deriving DecidableEq

/-- The category-resolution pipeline of `Selector::select` (lines 100-143):
language first, then the language-dependent backend, then the remaining
categories; the first failure aborts the call. -/
def Selector.selectAll (s : Selector) (bp : Blueprint) : Except String Components :=
  match s.select_language bp with
  | .error e => .error e
  | .ok language =>
  match s.select_component "backend" bp (some language.choice) with
  | .error e => .error e
  | .ok backend =>
  match s.select_component "frontend" bp none with
  | .error e => .error e
  | .ok frontend =>
  match s.select_database bp with
  | .error e => .error e
  | .ok database =>
  match s.select_component "cache" bp none with
  | .error e => .error e
  | .ok cache =>
  match s.select_component "queue" bp none with
  | .error e => .error e
  | .ok queue =>
  match s.select_ai bp with
  | .error e => .error e
  | .ok ai =>
  match s.select_component "infra" bp none with
  | .error e => .error e
  | .ok infra =>
  match s.select_component "ci_cd" bp none with
  | .error e => .error e
  | .ok ci_cd =>
  .ok { language := language, backend := backend, frontend := frontend, database := database,
        cache := cache, queue := queue, ai := ai, infra := infra, ci_cd := ci_cd }

/-- The AI names a plan aggregates cost over: the joined choice split back
on `", "` (`selector.rs` lines 127-134). -/
def aiChoicesOf (c : Components) : List String := splitOnModel c.ai.choice ", "

/-- Aggregate cost of `Selector::select` (lines 107-142): the chosen
backend, frontend, database, cache, queue, both AI names, infra and
`ci_cd`; the chosen language is never charged. -/
def Selector.totalCost (s : Selector) (c : Components) : ℚ :=
  s.get_component_cost "backend" c.backend.choice +
  s.get_component_cost "frontend" c.frontend.choice +
  s.get_component_cost "database" c.database.choice +
  s.get_component_cost "cache" c.cache.choice +
  s.get_component_cost "queue" c.queue.choice +
  ((aiChoicesOf c).map (fun a => s.get_component_cost "ai" a)).sum +
  s.get_component_cost "infra" c.infra.choice +
  s.get_component_cost "ci_cd" c.ci_cd.choice

/-- Budget error message of `Selector::select` (line 155). -/
def budgetErrorMsg (cap : ℚ) : String :=
  "No stack found within cost constraint of $" ++ toString cap

/-- Plan assembly of `Selector::select` (lines 161-199): build the stack,
hash the blueprint, build the plan with an empty plan hash, then hash the
serialized plan and fill the hash in. -/
def Selector.buildPlan (s : Selector) (bp : Blueprint) (decisions : List Decision)
    (c : Components) (total : ℚ) : StackPlan :=
  let stack : Stack :=
    { language := c.language.choice, services := none, frontend := c.frontend.choice,
      backend := c.backend.choice, database := c.database.choice, cache := c.cache.choice,
      queue := c.queue.choice, ai := aiChoicesOf c, infra := c.infra.choice,
      ci_cd := c.ci_cd.choice }
  let blueprint_hash := calculate_blueprint_hash (blueprintJson bp)
  let plan : StackPlan :=
    { decisions := decisions, stack := stack,
      estimated := { monthly_cost_usd := total, egress_gb := none, notes := none },
      meta := { seed := s.seed, blueprint_hash := blueprint_hash, plan_hash := "" } }
  { plan with
    meta := { seed := s.seed, blueprint_hash := blueprint_hash,
              plan_hash := calculate_plan_hash (planJson plan) } }

/-- The full selection pipeline (`Selector::select`): resolve all
categories, sort the decisions by descending score, enforce the budget
cap against the aggregate cost, and assemble the fingerprinted plan. -/
def Selector.select (s : Selector) (bp : Blueprint) : Except String StackPlan :=
  match s.selectAll bp with
  | .error e => .error e
  | .ok c =>
    let total := s.totalCost c
    let decisions := sortByDesc (fun d => d.score)
      [c.language, c.backend, c.frontend, c.database, c.cache, c.queue, c.ai, c.infra, c.ci_cd]
    match bp.constraints.monthly_cost_usd_max with
    | some max_cost =>
      if max_cost < total then .error (budgetErrorMsg max_cost)
      else .ok (s.buildPlan bp decisions c total)
    | none => .ok (s.buildPlan bp decisions c total)

/-! Derived views and spec-side definitions used by the claims. -/

/-- Aggregate cost of a run when all categories resolve (the code's
total), before the budget check. -/
def Selector.selectTotal (s : Selector) (bp : Blueprint) : Option ℚ :=
  (s.selectAll bp).toOption.map (fun c => s.totalCost c)

/-- The resolved stack of a successful run. -/
def stackOf (s : Selector) (bp : Blueprint) : Option Stack :=
  (s.select bp).toOption.map (fun p => p.stack)

/-- Number of top-tied candidates a category's pool produces; this is a
function of the rules and blueprint only (the seed is irrelevant to every
stage before the tie break, so the dummy seed 0 is immaterial). -/
def tieLenOf (r : Rules) (bp : Blueprint) (topic : String) (pool : List Candidate) : Nat :=
  ((Selector.mk r 0).sbTied topic pool bp).length

/-- Tie width of the language category. -/
def languageTieLen (r : Rules) (bp : Blueprint) : Nat :=
  tieLenOf r bp "language" (languagePool r bp)

/-- Tie width of the database category. -/
def databaseTieLen (r : Rules) (bp : Blueprint) : Nat :=
  tieLenOf r bp "database" (databasePool r bp)

/-- Tie width of the backend category once a language has been chosen. -/
def backendTieLen (r : Rules) (bp : Blueprint) (lang : String) : Nat :=
  tieLenOf r bp "backend" (langFilter r.candidates.backend (some lang))

/-- Tie width of a seed-independent generic category (frontend, cache,
queue, infra, ci_cd): its pool is its raw candidate list. -/
def plainTieLen (r : Rules) (bp : Blueprint) (topic : String) (pool : List Candidate) : Nat :=
  tieLenOf r bp topic pool

/-- Scoring formula as the spec words it (section 4.3): the five weighted
metrics, a 0.10 SLO boost when latency-sensitive, a 0.05 ops boost when
global, divided by the fixed constant 1.15 regardless of the loaded
weights. -/
def scoreSpec (w : Weights) (tp : TrafficProfile) (m : Metrics) : ℚ :=
  let raw := w.quality * m.quality + w.slo * m.slo + w.cost * m.cost +
             w.security * m.security + w.ops * m.ops
  let raw := raw + (if tp.latency_sensitive then 0.10 * m.slo else 0)
  let raw := raw + (if tp.global then 0.05 * m.ops else 0)
  raw / 1.15

/-- Cost aggregate as claim C1 words it, following the spec sentence "sum
base cost of every chosen candidate": the chosen language's base cost
included, alongside the eight categories the code charges. -/
def specCostSum (s : Selector) (st : Stack) : ℚ :=
  (match s.rules.candidates.language.find? (fun c => c.name == st.language) with
   | some c => c.monthly_cost_base
   | none => 0) +
  s.get_component_cost "backend" st.backend +
  s.get_component_cost "frontend" st.frontend +
  s.get_component_cost "database" st.database +
  s.get_component_cost "cache" st.cache +
  s.get_component_cost "queue" st.queue +
  (st.ai.map (fun a => s.get_component_cost "ai" a)).sum +
  s.get_component_cost "infra" st.infra +
  s.get_component_cost "ci_cd" st.ci_cd

/-- Cost aggregate the code actually charges, read off a resolved stack:
backend, frontend, database, cache, queue, both AI names, infra, ci_cd —
the chosen language is not charged. -/
def stackCostSum (s : Selector) (st : Stack) : ℚ :=
  s.get_component_cost "backend" st.backend +
  s.get_component_cost "frontend" st.frontend +
  s.get_component_cost "database" st.database +
  s.get_component_cost "cache" st.cache +
  s.get_component_cost "queue" st.queue +
  (st.ai.map (fun a => s.get_component_cost "ai" a)).sum +
  s.get_component_cost "infra" st.infra +
  s.get_component_cost "ci_cd" st.ci_cd

/-- Cost aggregate of the seven non-AI charged categories of a stack. -/
def nonAiStackCost (s : Selector) (st : Stack) : ℚ :=
  s.get_component_cost "backend" st.backend +
  s.get_component_cost "frontend" st.frontend +
  s.get_component_cost "database" st.database +
  s.get_component_cost "cache" st.cache +
  s.get_component_cost "queue" st.queue +
  s.get_component_cost "infra" st.infra +
  s.get_component_cost "ci_cd" st.ci_cd

/-- All five metrics of a candidate lie in the unit interval. -/
def metricsIn01 (m : Metrics) : Prop :=
  0 ≤ m.quality ∧ m.quality ≤ 1 ∧ 0 ≤ m.slo ∧ m.slo ≤ 1 ∧ 0 ≤ m.cost ∧ m.cost ≤ 1 ∧
  0 ≤ m.security ∧ m.security ≤ 1 ∧ 0 ≤ m.ops ∧ m.ops ≤ 1

instance (m : Metrics) : Decidable (metricsIn01 m) := by
  unfold metricsIn01; infer_instance

/-- Every candidate of every category has metrics in the unit interval. -/
def rulesMetricsIn01 (r : Rules) : Prop :=
  (∀ c ∈ r.candidates.language, metricsIn01 c.metrics) ∧
  (∀ c ∈ r.candidates.backend, metricsIn01 c.metrics) ∧
  (∀ c ∈ r.candidates.frontend, metricsIn01 c.metrics) ∧
  (∀ c ∈ r.candidates.database, metricsIn01 c.metrics) ∧
  (∀ c ∈ r.candidates.cache, metricsIn01 c.metrics) ∧
  (∀ c ∈ r.candidates.queue, metricsIn01 c.metrics) ∧
  (∀ c ∈ r.candidates.ai, metricsIn01 c.metrics) ∧
  (∀ c ∈ r.candidates.infra, metricsIn01 c.metrics) ∧
  (∀ c ∈ r.candidates.ci_cd, metricsIn01 c.metrics)

instance (r : Rules) : Decidable (rulesMetricsIn01 r) := by
  unfold rulesMetricsIn01; infer_instance

/-- The five weights are non-negative and sum to at most one — the regime
the fixed 1.15 divisor was designed for. -/
def weightsBounded (w : Weights) : Prop :=
  0 ≤ w.quality ∧ 0 ≤ w.slo ∧ 0 ≤ w.cost ∧ 0 ≤ w.security ∧ 0 ≤ w.ops ∧
  w.quality + w.slo + w.cost + w.security + w.ops ≤ 1

instance (w : Weights) : Decidable (weightsBounded w) := by
  unfold weightsBounded; infer_instance

/-- The flattened preference view a blueprint presents for a topic: the
only channel through which `select_best` reads `prefs`. -/
def prefView (bp : Blueprint) (topic : String) : Option (List String) :=
  match bp.prefs with
  | some prefs => prefsFor prefs topic
  | none => none

/-! Concrete fixtures used by witnesses and counterexamples. -/

/-- Candidate with the given metrics and cost, available everywhere, no
requirements, no tag, no notes. -/
def mkCand (name : String) (q sl c sec o cost : ℚ) : Candidate :=
  { name := name, requires := none, persistence := none,
    metrics := { quality := q, slo := sl, cost := c, security := sec, ops := o },
    regions := ["*"], monthly_cost_base := cost, notes := [] }

/-- Reference weights (the repository's test fixture weights). -/
def w0 : Weights := { quality := 0.3, slo := 0.25, cost := 0.2, security := 0.15, ops := 0.1 }

/-- Reference candidate catalog: one candidate per category except AI,
no ties anywhere. -/
def cats0 : CandidateCategories :=
  { language := [mkCand "Rust" 0.9 0.95 0.8 0.95 0.85 0],
    backend := [mkCand "Axum" 0.85 0.85 0.7 0.8 0.85 100],
    frontend := [mkCand "SvelteKit" 0.85 0.8 0.8 0.8 0.85 50],
    database := [mkCand "PostgreSQL" 0.9 0.85 0.7 0.9 0.8 200],
    cache := [mkCand "Redis" 0.9 0.95 0.6 0.85 0.85 100],
    queue := [mkCand "NATS" 0.85 0.9 0.5 0.85 0.9 50],
    ai := [mkCand "RuneSage" 0.8 0.8 0.7 0.8 0.8 100,
           mkCand "OpenAI" 0.95 0.85 0.5 0.85 0.9 200,
           mkCand "Claude" 0.9 0.85 0.6 0.9 0.85 150],
    infra := [mkCand "Terraform" 0.9 0.85 0.8 0.9 0.9 0],
    ci_cd := [mkCand "GitHub Actions" 0.85 0.8 0.9 0.85 0.9 20] }

/-- Reference rules. -/
def R0 : Rules := { version := 1, weights := w0, candidates := cats0 }

/-- Reference blueprint: cap 1000, no persistence request, no region
list, no compliance, global traffic, no preferences. -/
def bp0 : Blueprint :=
  { project_name := "test-project", goals := ["Build a web app"],
    constraints := { monthly_cost_usd_max := some 1000, persistence := none,
                     region_allow := none, compliance := none },
    traffic_profile := { rps_peak := 1000, global := true, latency_sensitive := false },
    prefs := none, single_language_mode := none }

/-- Reference selector, seed 42. -/
def S0 : Selector := { rules := R0, seed := 42 }

/-- Rules for the C1 counterexample: the chosen language costs 100, the
backend 10, everything else 0. -/
def R1 : Rules :=
  { version := 1, weights := w0, candidates :=
    { language := [mkCand "Rust" 0.9 0.95 0.8 0.95 0.85 100],
      backend := [mkCand "Axum" 0.85 0.85 0.7 0.8 0.85 10],
      frontend := [mkCand "SvelteKit" 0.85 0.8 0.8 0.8 0.85 0],
      database := [mkCand "PostgreSQL" 0.9 0.85 0.7 0.9 0.8 0],
      cache := [mkCand "Redis" 0.9 0.95 0.6 0.85 0.85 0],
      queue := [mkCand "NATS" 0.85 0.9 0.5 0.85 0.9 0],
      ai := [mkCand "RuneSage" 0.8 0.8 0.7 0.8 0.8 0],
      infra := [mkCand "Terraform" 0.9 0.85 0.8 0.9 0.9 0],
      ci_cd := [mkCand "GitHub Actions" 0.85 0.8 0.9 0.85 0.9 0] } }

/-- Blueprint with no cost cap, otherwise as `bp0`. -/
def bp1 : Blueprint :=
  { bp0 with constraints := { monthly_cost_usd_max := none, persistence := none,
                              region_allow := none, compliance := none } }

/-- Rules for the C2 counterexample: language 60, backend 50, rest 0 —
every single candidate is below the cap 100, the charged total is 50, but
the spec-worded sum including the language is 110. -/
def R2 : Rules :=
  { version := 1, weights := w0, candidates :=
    { language := [mkCand "Rust" 0.9 0.95 0.8 0.95 0.85 60],
      backend := [mkCand "Axum" 0.85 0.85 0.7 0.8 0.85 50],
      frontend := [mkCand "SvelteKit" 0.85 0.8 0.8 0.8 0.85 0],
      database := [mkCand "PostgreSQL" 0.9 0.85 0.7 0.9 0.8 0],
      cache := [mkCand "Redis" 0.9 0.95 0.6 0.85 0.85 0],
      queue := [mkCand "NATS" 0.85 0.9 0.5 0.85 0.9 0],
      ai := [mkCand "RuneSage" 0.8 0.8 0.7 0.8 0.8 0],
      infra := [mkCand "Terraform" 0.9 0.85 0.8 0.9 0.9 0],
      ci_cd := [mkCand "GitHub Actions" 0.85 0.8 0.9 0.85 0.9 0] } }

/-- Blueprint with cap 100, otherwise as `bp0`. -/
def bp2 : Blueprint :=
  { bp0 with constraints := { monthly_cost_usd_max := some 100, persistence := none,
                              region_allow := none, compliance := none } }

/-- Rules for the C4 counterexample: metrics all within [0,1], but the
quality weight is 10, so scores leave the unit interval. -/
def R4 : Rules :=
  { version := 1,
    weights := { quality := 10, slo := 0, cost := 0, security := 0, ops := 0 },
    candidates :=
    { language := [mkCand "Rust" 0.5 0.5 0.5 0.5 0.5 0],
      backend := [mkCand "Axum" 0.5 0.5 0.5 0.5 0.5 0],
      frontend := [mkCand "SvelteKit" 0.5 0.5 0.5 0.5 0.5 0],
      database := [mkCand "PostgreSQL" 0.5 0.5 0.5 0.5 0.5 0],
      cache := [mkCand "Redis" 0.5 0.5 0.5 0.5 0.5 0],
      queue := [mkCand "NATS" 0.5 0.5 0.5 0.5 0.5 0],
      ai := [mkCand "RuneSage" 0.5 0.5 0.5 0.5 0.5 0],
      infra := [mkCand "Terraform" 0.5 0.5 0.5 0.5 0.5 0],
      ci_cd := [mkCand "GitHub Actions" 0.5 0.5 0.5 0.5 0.5 0] } }

/-- Candidate that declares a required language. -/
def mkCandReq (name lang : String) (cost : ℚ) : Candidate :=
  { mkCand name 0.8 0.8 0.8 0.8 0.8 cost with requires := some { language := some lang } }

/-- Rules for the C6 counterexample: two languages with identical metrics
(a genuine tie), and one backend per language via the language-dependency
filter, so each run's backend pool is a singleton. -/
def R6 : Rules :=
  { version := 1, weights := w0, candidates :=
    { language := [mkCand "LangA" 0.9 0.9 0.9 0.9 0.9 0,
                   mkCand "LangB" 0.9 0.9 0.9 0.9 0.9 0],
      backend := [mkCandReq "BackA" "LangA" 0, mkCandReq "BackB" "LangB" 0],
      frontend := [mkCand "SvelteKit" 0.85 0.8 0.8 0.8 0.85 0],
      database := [mkCand "PostgreSQL" 0.9 0.85 0.7 0.9 0.8 0],
      cache := [mkCand "Redis" 0.9 0.95 0.6 0.85 0.85 0],
      queue := [mkCand "NATS" 0.85 0.9 0.5 0.85 0.9 0],
      ai := [mkCand "RuneSage" 0.8 0.8 0.7 0.8 0.8 0],
      infra := [mkCand "Terraform" 0.9 0.85 0.8 0.9 0.9 0],
      ci_cd := [mkCand "GitHub Actions" 0.85 0.8 0.9 0.85 0.9 0] } }

/-- Database candidate with a persistence tag. -/
def mkCandTag (name tag : String) : Candidate :=
  { mkCand name 0.8 0.8 0.8 0.8 0.8 0 with persistence := some tag }

/-- Rules for the C9 witness: database candidates tagged `sql`, `kv`,
`both`, and one untagged. -/
def R9 : Rules :=
  { R0 with candidates :=
    { cats0 with database := [mkCandTag "PostgreSQL" "sql", mkCandTag "Redis" "kv",
                              mkCandTag "DynamoDB" "both", mkCand "Files" 0.5 0.5 0.5 0.5 0.5 0] } }

/-- Blueprint requesting `kv` persistence, otherwise as `bp0`. -/
def bp9 : Blueprint :=
  { bp0 with constraints := { monthly_cost_usd_max := some 1000, persistence := some .kv,
                              region_allow := none, compliance := none } }

/-- Rules for the C7 counterexample: the top-ranked admissible AI
candidate's name contains the `", "` separator, so the join-then-split in
`select` breaks it into fragments. -/
def R7 : Rules :=
  { R0 with candidates :=
    { cats0 with ai := [mkCand "Alpha, Beta" 0.9 0.9 0.9 0.9 0.9 30,
                        mkCand "Gamma" 0.8 0.8 0.8 0.8 0.8 7] } }

/-- Preferences that set only the AI list, for the C10 witness. -/
def prefsAiOnly : Preferences :=
  { frontend := none, backend := none, database := none, ai := some ["Claude"] }

/-- The stack the reference fixture resolves to. -/
def stackFix0 : Stack :=
  { language := "Rust", services := none, frontend := "SvelteKit", backend := "Axum",
    database := "PostgreSQL", cache := "Redis", queue := "NATS", ai := ["Claude", "OpenAI"],
    infra := "Terraform", ci_cd := "GitHub Actions" }

/-! Theorems. -/

/-- C5: for every metrics and blueprint the candidate score equals exactly
the five weighted metrics plus the 0.10 SLO boost when latency-sensitive
and the 0.05 ops boost when global, divided by the fixed constant 1.15,
which the spec-side formula hard-codes independently of the loaded
weights. -/
theorem C5_score_formula (s : Selector) (m : Metrics) (bp : Blueprint) :
    s.calculate_score m bp = scoreSpec s.rules.weights bp.traffic_profile m := by
  unfold Selector.calculate_score scoreSpec
  cases hl : bp.traffic_profile.latency_sensitive <;>
    cases hg : bp.traffic_profile.global <;> simp [hl, hg] <;> norm_num

/-- C9: under a requested persistence tag, a database candidate is in the
database pool exactly when it comes from the rules' database list and its
own tag is string-equal to the requested one; untagged candidates and any
other tag (including `both` against `kv` or `sql`) are excluded. -/
theorem C9_persistence_exact (r : Rules) (bp : Blueprint) (pt : PersistenceType)
    (hp : bp.constraints.persistence = some pt) (c : Candidate) :
    c ∈ databasePool r bp ↔
      c ∈ r.candidates.database ∧ c.persistence = some (persistenceTag pt) := by
  unfold databasePool
  rw [hp]
  simp only [List.mem_filter, and_congr_right_iff]
  intro _
  cases hcp : c.persistence with
  | none => simp [hcp]
  | some t => simp [hcp, beq_iff_eq]

/-- Witness for C9 at Scenario D: database candidates tagged `sql`, `kv`,
`both` and one untagged, request `kv` — the pool is exactly the `kv`
candidate, and the membership equivalence holds at that candidate. -/
theorem C9_persistence_exact_witness :
    databasePool R9 bp9 = [mkCandTag "Redis" "kv"]
    ∧ (mkCandTag "Redis" "kv" ∈ databasePool R9 bp9 ↔
        mkCandTag "Redis" "kv" ∈ R9.candidates.database ∧
          (mkCandTag "Redis" "kv").persistence = some (persistenceTag PersistenceType.kv)) :=
  ⟨by decide, C9_persistence_exact R9 bp9 PersistenceType.kv rfl (mkCandTag "Redis" "kv")⟩

/-- C8: the tie breaker is deterministic in (topic, seed, names); its
output always lies in the name list; with at least two names it returns
the element indexed by the seeded generator applied to the little-endian
64-bit integer formed by the first 8 bytes of SHA-256 over the topic bytes
followed by the seed's little-endian bytes; a singleton list returns its
sole element; the empty list hits the modelled panic (`none`), never a
silent value. -/
theorem C8_tie_breaker_contract (t1 t2 : String) (s1 s2 : Nat) (ns1 ns2 : List String)
    (ht : t1 = t2) (hs : s1 = s2) (hn : ns1 = ns2) :
    tie_breaker t1 s1 ns1 = tie_breaker t2 s2 ns2
    ∧ ((tie_breaker t1 s1 ns1).all fun r => ns1.contains r) = true
    ∧ (2 ≤ ns1.length →
        tie_breaker t1 s1 ns1 =
          ns1.get? (rngIndex (leU64 ((sha256 (strBytes t1 ++ u64le s1)).take 8)) ns1.length))
    ∧ (∀ x, ns1 = [x] → tie_breaker t1 s1 ns1 = some x)
    ∧ tie_breaker t1 s1 [] = none := by
  subst ht hs hn
  refine ⟨rfl, ?_, ?_, ?_, rfl⟩
  · unfold tie_breaker
    by_cases he : ns1.isEmpty = true
    · rw [if_pos he]
      rfl
    · rw [if_neg he]
      by_cases h1 : ns1.length = 1
      · rw [if_pos h1]
        obtain ⟨x, hx⟩ := List.length_eq_one.mp h1
        subst hx
        show ([x].contains ([x].headD "")) = true
        simp
      · rw [if_neg h1]
        show ((ns1.get? (rngIndex (leU64 ((sha256 (strBytes t1 ++ u64le s1)).take 8))
            ns1.length)).all fun r => ns1.contains r) = true
        cases hg : ns1.get? (rngIndex (leU64 ((sha256 (strBytes t1 ++ u64le s1)).take 8))
            ns1.length) with
        | none => rfl
        | some y =>
          show ns1.contains y = true
          exact List.elem_iff.mpr (List.get?_mem hg)
  · intro h2
    have he : ¬ ns1.isEmpty = true := by
      cases ns1 with
      | nil => simp at h2
      | cons a l => simp
    have h1 : ¬ ns1.length = 1 := by omega
    unfold tie_breaker
    rw [if_neg he, if_neg h1]
  · intro x hx
    subst hx
    rfl

/-- Witness for C8 at a concrete call: topic `backend`, seed 42, two
names — determinism, membership, the hash-derived index, the singleton
case and the empty case, all instantiated. -/
theorem C8_tie_breaker_contract_witness :
    tie_breaker "backend" 42 ["Actix Web", "Axum"] =
      tie_breaker "backend" 42 ["Actix Web", "Axum"]
    ∧ ((tie_breaker "backend" 42 ["Actix Web", "Axum"]).all
        fun r => (["Actix Web", "Axum"] : List String).contains r) = true
    ∧ tie_breaker "backend" 42 ["Actix Web", "Axum"] =
        (["Actix Web", "Axum"] : List String).get?
          (rngIndex (leU64 ((sha256 (strBytes "backend" ++ u64le 42)).take 8)) 2)
    ∧ tie_breaker "backend" 42 ["solo"] = some "solo"
    ∧ tie_breaker "backend" 42 [] = none := by
  have h := C8_tie_breaker_contract "backend" "backend" 42 42
    ["Actix Web", "Axum"] ["Actix Web", "Axum"] rfl rfl rfl
  have h1 := C8_tie_breaker_contract "backend" "backend" 42 42 ["solo"] ["solo"] rfl rfl rfl
  exact ⟨h.1, h.2.1, h.2.2.1 (by decide), h1.2.2.2.1 "solo" rfl, h.2.2.2.2⟩

/-- C3: two selectors holding the same parsed rules and the same seed (as
produced by building them from the same rules text and seed — parsing is a
pure function of the text) return identical `select` results on every
blueprint; in particular the plan fingerprints agree. -/
theorem C3_determinism (s1 s2 : Selector) (bp : Blueprint)
    (hr : s1.rules = s2.rules) (hs : s1.seed = s2.seed) :
    s1.select bp = s2.select bp
    ∧ ((s1.select bp).toOption.map fun p => p.meta.plan_hash) =
        ((s2.select bp).toOption.map fun p => p.meta.plan_hash) := by
  obtain ⟨r1, d1⟩ := s1
  obtain ⟨r2, d2⟩ := s2
  cases hr
  cases hs
  exact ⟨rfl, rfl⟩

/-- Witness for C3: two syntactically separate selectors built over the
same rules value and seed agree on the reference blueprint. -/
theorem C3_determinism_witness :
    S0.select bp0 = (Selector.mk R0 42).select bp0
    ∧ ((S0.select bp0).toOption.map fun p => p.meta.plan_hash) =
        (((Selector.mk R0 42).select bp0).toOption.map fun p => p.meta.plan_hash) :=
  C3_determinism S0 (Selector.mk R0 42) bp0 rfl rfl

/-- Decisions of a run, in the fixed source order, as a list. -/
def componentsList (c : Components) : List Decision :=
  [c.language, c.backend, c.frontend, c.database, c.cache, c.queue, c.ai, c.infra, c.ci_cd]

/-- Inversion of a successful `select`: the categories all resolved, the
plan is the assembled one, and the charged total respects any cap. -/
theorem select_ok_inv {s : Selector} {bp : Blueprint} {p : StackPlan}
    (h : s.select bp = .ok p) :
    ∃ c, s.selectAll bp = .ok c
      ∧ p = s.buildPlan bp (sortByDesc (fun d => d.score) (componentsList c)) c (s.totalCost c)
      ∧ (∀ cap, bp.constraints.monthly_cost_usd_max = some cap → s.totalCost c ≤ cap) := by
  unfold Selector.select at h
  cases hall : s.selectAll bp with
  | error e => rw [hall] at h; cases h
  | ok c =>
    rw [hall] at h
    refine ⟨c, rfl, ?_⟩
    cases hm : bp.constraints.monthly_cost_usd_max with
    | none =>
      rw [hm] at h
      dsimp only at h
      exact ⟨(Except.ok.inj h).symm, fun cap hc => by cases hc⟩
    | some cap =>
      rw [hm] at h
      dsimp only at h
      by_cases hlt : cap < s.totalCost c
      · rw [if_pos hlt] at h
        cases h
      · rw [if_neg hlt] at h
        refine ⟨(Except.ok.inj h).symm, ?_⟩
        intro cap2 hc2
        cases hc2
        exact not_lt.mp hlt

/-- Forward direction: when all categories resolve and no cap is
exceeded, `select` returns the assembled plan. -/
theorem select_eq_ok {s : Selector} {bp : Blueprint} {c : Components}
    (hall : s.selectAll bp = .ok c)
    (hok : ∀ cap, bp.constraints.monthly_cost_usd_max = some cap → s.totalCost c ≤ cap) :
    s.select bp =
      .ok (s.buildPlan bp (sortByDesc (fun d => d.score) (componentsList c)) c (s.totalCost c)) := by
  unfold Selector.select
  rw [hall]
  cases hm : bp.constraints.monthly_cost_usd_max with
  | none => rfl
  | some cap =>
    show (if cap < s.totalCost c then Except.error (budgetErrorMsg cap)
      else Except.ok (s.buildPlan bp (sortByDesc (fun d => d.score) (componentsList c)) c
        (s.totalCost c))) =
      Except.ok (s.buildPlan bp (sortByDesc (fun d => d.score) (componentsList c)) c
        (s.totalCost c))
    rw [if_neg (not_lt.mpr (hok cap hm))]

/-- Forward direction: when all categories resolve but the charged total
exceeds the cap, `select` fails with exactly the budget error. -/
theorem select_eq_budget_error {s : Selector} {bp : Blueprint} {c : Components} {cap : ℚ}
    (hall : s.selectAll bp = .ok c)
    (hcap : bp.constraints.monthly_cost_usd_max = some cap)
    (hlt : cap < s.totalCost c) :
    s.select bp = .error (budgetErrorMsg cap) := by
  unfold Selector.select
  rw [hall, hcap]
  show (if cap < s.totalCost c then Except.error (budgetErrorMsg cap)
    else Except.ok (s.buildPlan bp (sortByDesc (fun d => d.score) (componentsList c)) c
      (s.totalCost c))) = Except.error (budgetErrorMsg cap)
  rw [if_pos hlt]

/-- Mapping over a success. -/
theorem except_map_ok {e a b : Type} (f : a → b) (x : a) :
    (Except.ok x : Except e a).map f = .ok (f x) := rfl

/-- The decisions of the assembled plan are the passed decisions. -/
theorem buildPlan_decisions (s : Selector) (bp : Blueprint) (ds : List Decision)
    (c : Components) (total : ℚ) : (s.buildPlan bp ds c total).decisions = ds := rfl

/-- The stack of the assembled plan. -/
theorem buildPlan_stack (s : Selector) (bp : Blueprint) (ds : List Decision)
    (c : Components) (total : ℚ) :
    (s.buildPlan bp ds c total).stack =
      { language := c.language.choice, services := none, frontend := c.frontend.choice,
        backend := c.backend.choice, database := c.database.choice, cache := c.cache.choice,
        queue := c.queue.choice, ai := aiChoicesOf c, infra := c.infra.choice,
        ci_cd := c.ci_cd.choice } := rfl

/-- The estimate of the assembled plan is the passed total. -/
theorem buildPlan_estimated (s : Selector) (bp : Blueprint) (ds : List Decision)
    (c : Components) (total : ℚ) :
    (s.buildPlan bp ds c total).estimated =
      { monthly_cost_usd := total, egress_gb := none, notes := none } := rfl

/-- A failed category pipeline aborts the whole call with its error. -/
theorem select_eq_err {s : Selector} {bp : Blueprint} {e : String}
    (hall : s.selectAll bp = .error e) : s.select bp = .error e := by
  unfold Selector.select
  rw [hall]

/-- Reading the plan fields off the assembled plan. -/
theorem buildPlan_fields (s : Selector) (bp : Blueprint) (ds : List Decision)
    (c : Components) (total : ℚ) :
    (s.buildPlan bp ds c total).estimated.monthly_cost_usd = total
    ∧ (s.buildPlan bp ds c total).decisions = ds
    ∧ (s.buildPlan bp ds c total).stack =
        { language := c.language.choice, services := none, frontend := c.frontend.choice,
          backend := c.backend.choice, database := c.database.choice, cache := c.cache.choice,
          queue := c.queue.choice, ai := aiChoicesOf c, infra := c.infra.choice,
          ci_cd := c.ci_cd.choice }
    ∧ (s.buildPlan bp ds c total).meta.blueprint_hash =
        calculate_blueprint_hash (blueprintJson bp) :=
  ⟨rfl, rfl, rfl, rfl⟩

/-- The charged total equals the stack-level cost sum of the plan. -/
theorem totalCost_eq_stackCostSum (s : Selector) (bp : Blueprint) (ds : List Decision)
    (c : Components) :
    stackCostSum s (s.buildPlan bp ds c (s.totalCost c)).stack = s.totalCost c := rfl

/-- Preference filtering never adds candidates. -/
theorem applyPrefs_sublist (bp : Blueprint) (topic : String) (l : List Candidate) :
    (applyPrefs bp topic l).Sublist l := by
  unfold applyPrefs
  cases hp : bp.prefs with
  | none => exact List.Sublist.refl l
  | some prefs =>
    show (match prefsFor prefs topic with
          | some pref_names =>
            let preferred := List.filter (fun c : Candidate => pref_names.contains c.name) l
            if preferred.isEmpty = true then l else preferred
          | none => l).Sublist l
    cases hf : prefsFor prefs topic with
    | none => exact List.Sublist.refl l
    | some names =>
      show (if (List.filter (fun c : Candidate => names.contains c.name) l).isEmpty = true then l
            else List.filter (fun c : Candidate => names.contains c.name) l).Sublist l
      by_cases hpe : (List.filter (fun c : Candidate => names.contains c.name) l).isEmpty = true
      · rw [if_pos hpe]
      · rw [if_neg hpe]
        exact List.filter_sublist l

/-- The filtered pool is a sublist of the incoming candidate list. -/
theorem sbPool_sublist (s : Selector) (topic : String) (cands : List Candidate)
    (bp : Blueprint) : (s.sbPool topic cands bp).Sublist cands :=
  (applyPrefs_sublist bp topic _).trans (List.filter_sublist cands)

/-- Sorting preserves the number of scored candidates. -/
theorem sbSorted_length (s : Selector) (topic : String) (cands : List Candidate)
    (bp : Blueprint) :
    (s.sbSorted topic cands bp).length = (s.sbPool topic cands bp).length := by
  unfold Selector.sbSorted sortByDesc
  rw [(List.perm_insertionSort _ _).length_eq, List.length_map]

/-- Membership in the sorted scored list is membership in the scored
pool. -/
theorem sbSorted_mem {s : Selector} {topic : String} {cands : List Candidate}
    {bp : Blueprint} {x : Candidate × ℚ} (hx : x ∈ s.sbSorted topic cands bp) :
    x ∈ (s.sbPool topic cands bp).map (fun c => (c, s.calculate_score c.metrics bp)) :=
  (List.perm_insertionSort _ _).mem_iff.mp hx

/-- A non-empty pool sorts to a non-empty list. -/
theorem sbSorted_ne_nil {s : Selector} {topic : String} {cands : List Candidate}
    {bp : Blueprint} (h : (s.sbPool topic cands bp).isEmpty = false) :
    s.sbSorted topic cands bp ≠ [] := by
  intro hn
  have hlen := sbSorted_length s topic cands bp
  rw [hn] at hlen
  cases hpool : s.sbPool topic cands bp with
  | nil => rw [hpool] at h; cases h
  | cons a l => rw [hpool] at hlen; simp at hlen

/-- The chosen scored candidate always comes from the sorted list. -/
theorem sbChosen_mem {s : Selector} {topic : String} {cands : List Candidate}
    {bp : Blueprint} (h : (s.sbPool topic cands bp).isEmpty = false) :
    s.sbChosen topic cands bp ∈ s.sbSorted topic cands bp := by
  unfold Selector.sbChosen
  cases hf : (s.sbSorted topic cands bp).find?
      (fun x => x.1.name == s.sbChoice topic cands bp) with
  | some x =>
    simp only [Option.getD_some]
    exact List.mem_of_find?_eq_some hf
  | none =>
    simp only [Option.getD_none]
    have hne := sbSorted_ne_nil h
    cases hs : s.sbSorted topic cands bp with
    | nil => exact absurd hs hne
    | cons a l => exact List.mem_cons_self a l

/-- Inversion of a successful `select_best`: the pool was non-empty and
the decision is the assembled record. -/
theorem select_best_ok_inv {s : Selector} {topic : String} {cands : List Candidate}
    {bp : Blueprint} {lang : Option String} {d : Decision}
    (h : s.select_best topic cands bp lang = .ok d) :
    (s.sbPool topic cands bp).isEmpty = false
    ∧ d = { topic := topic, choice := s.sbChoice topic cands bp,
            reasons := sbReasons topic lang bp (s.sbChosen topic cands bp),
            alternatives := (((s.sbSorted topic cands bp).filter
                (fun x => x.1.name != s.sbChoice topic cands bp)).take 3).map
              (fun x => x.1.name),
            score := (s.sbChosen topic cands bp).2 } := by
  unfold Selector.select_best at h
  by_cases hf : (s.sbPool topic cands bp).isEmpty = true
  · rw [if_pos hf] at h
    cases h
  · rw [if_neg hf] at h
    exact ⟨Bool.not_eq_true _ |>.mp hf, (Except.ok.inj h).symm⟩

/-- The score of a `select_best` decision is the engine's score of some
incoming candidate. -/
theorem select_best_ok_score {s : Selector} {topic : String} {cands : List Candidate}
    {bp : Blueprint} {lang : Option String} {d : Decision}
    (h : s.select_best topic cands bp lang = .ok d) :
    ∃ c, c ∈ cands ∧ d.score = s.calculate_score c.metrics bp := by
  obtain ⟨hne, hd⟩ := select_best_ok_inv h
  obtain ⟨c, hc, hceq⟩ := List.mem_map.mp (sbSorted_mem (sbChosen_mem hne))
  refine ⟨c, List.Sublist.mem hc (sbPool_sublist s topic cands bp), ?_⟩
  rw [hd]
  show (s.sbChosen topic cands bp).2 = _
  rw [← hceq]

/-- The language pool never leaves the rules' language list. -/
theorem languagePool_sublist (r : Rules) (bp : Blueprint) :
    (languagePool r bp).Sublist r.candidates.language := by
  unfold languagePool
  cases bp.single_language_mode with
  | none => exact List.Sublist.refl _
  | some m => exact List.filter_sublist _

/-- The database pool never leaves the rules' database list. -/
theorem databasePool_sublist (r : Rules) (bp : Blueprint) :
    (databasePool r bp).Sublist r.candidates.database := by
  unfold databasePool
  cases bp.constraints.persistence with
  | none => exact List.Sublist.refl _
  | some m => exact List.filter_sublist _

/-- The language-dependency filter never adds candidates. -/
theorem langFilter_sublist (cands : List Candidate) (lang : Option String) :
    (langFilter cands lang).Sublist cands := by
  unfold langFilter
  cases lang with
  | none => exact List.Sublist.refl _
  | some m => exact List.filter_sublist _

/-- Unfolding lemma for language selection. -/
theorem select_language_def (s : Selector) (bp : Blueprint) :
    s.select_language bp = s.select_best "language" (languagePool s.rules bp) bp none := rfl

/-- Unfolding lemma for database selection. -/
theorem select_database_def (s : Selector) (bp : Blueprint) :
    s.select_database bp = s.select_best "database" (databasePool s.rules bp) bp none := rfl

/-- The score of a generic component decision is the engine's score of
some candidate from the dispatched category list. -/
theorem select_component_ok_score {s : Selector} {topic : String} {bp : Blueprint}
    {lang : Option String} {d : Decision}
    (h : s.select_component topic bp lang = .ok d) :
    ∃ l0, componentList s.rules topic = some l0
      ∧ ∃ c, c ∈ l0 ∧ d.score = s.calculate_score c.metrics bp := by
  unfold Selector.select_component at h
  cases hcl : componentList s.rules topic with
  | none => rw [hcl] at h; cases h
  | some l0 =>
    rw [hcl] at h
    obtain ⟨c, hc, hs⟩ := select_best_ok_score h
    exact ⟨l0, rfl, c, List.Sublist.mem hc (langFilter_sublist l0 lang), hs⟩

/-- Inversion of a successful `select_ai`: the ranked list was non-empty
and the decision is the assembled record. -/
theorem select_ai_ok_inv {s : Selector} {bp : Blueprint} {d : Decision}
    (h : s.select_ai bp = .ok d) :
    (s.aiRanked bp).isEmpty = false
    ∧ d = { topic := "ai",
            choice := String.intercalate ", " (((s.aiRanked bp).take 2).map (fun x => x.1)),
            reasons := ["Selected based on quality and cost balance",
                        "Multiple AI providers for redundancy"],
            alternatives := (((s.aiRanked bp).drop 2).take 2).map (fun x => x.1),
            score := ((s.aiRanked bp).headD ("", 0)).2 } := by
  unfold Selector.select_ai at h
  by_cases hf : (s.aiRanked bp).isEmpty = true
  · rw [if_pos hf] at h
    cases h
  · rw [if_neg hf] at h
    exact ⟨Bool.not_eq_true _ |>.mp hf, (Except.ok.inj h).symm⟩

/-- The AI decision's score is the engine's score of some AI candidate. -/
theorem select_ai_ok_score {s : Selector} {bp : Blueprint} {d : Decision}
    (h : s.select_ai bp = .ok d) :
    ∃ c, c ∈ s.rules.candidates.ai ∧ d.score = s.calculate_score c.metrics bp := by
  obtain ⟨hne, hd⟩ := select_ai_ok_inv h
  cases hr : s.aiRanked bp with
  | nil => rw [hr] at hne; cases hne
  | cons a l =>
    have ha : a ∈ s.aiRanked bp := by rw [hr]; exact List.mem_cons_self a l
    have ha2 : a ∈ (s.rules.candidates.ai.filter (fun c => s.check_constraints c bp)).map
        (fun c => (c.name, s.calculate_score c.metrics bp)) :=
      (List.perm_insertionSort _ _).mem_iff.mp ha
    obtain ⟨c, hc, hceq⟩ := List.mem_map.mp ha2
    refine ⟨c, List.Sublist.mem hc (List.filter_sublist _), ?_⟩
    rw [hd]
    show ((s.aiRanked bp).headD ("", 0)).2 = _
    rw [hr]
    show a.2 = _
    rw [← hceq]

/-- The score as one closed formula, with the conditional boosts pulled
out as zero-defaulted additions. -/
theorem calculate_score_eq (s : Selector) (m : Metrics) (bp : Blueprint) :
    s.calculate_score m bp =
      (s.rules.weights.quality * m.quality + s.rules.weights.slo * m.slo +
       s.rules.weights.cost * m.cost + s.rules.weights.security * m.security +
       s.rules.weights.ops * m.ops +
       (if bp.traffic_profile.latency_sensitive then (0.1 : ℚ) * m.slo else 0) +
       (if bp.traffic_profile.global then (0.05 : ℚ) * m.ops else 0)) / 1.15 := by
  unfold Selector.calculate_score
  cases h1 : bp.traffic_profile.latency_sensitive <;>
    cases h2 : bp.traffic_profile.global <;> simp [h1, h2]

/-- Score bounds: with non-negative weights summing to at most one and
metrics in the unit interval, every score lands in the unit interval. -/
theorem calculate_score_bounds (s : Selector) (bp : Blueprint) (m : Metrics)
    (hw : weightsBounded s.rules.weights) (hm : metricsIn01 m) :
    0 ≤ s.calculate_score m bp ∧ s.calculate_score m bp ≤ 1 := by
  obtain ⟨hq, hsl, hc, hsec, hop, hsum⟩ := hw
  obtain ⟨mq0, mq1, ms0, ms1, mc0, mc1, msec0, msec1, mo0, mo1⟩ := hm
  have pq0 : 0 ≤ s.rules.weights.quality * m.quality := mul_nonneg hq mq0
  have pq1 : s.rules.weights.quality * m.quality ≤ s.rules.weights.quality :=
    mul_le_of_le_one_right hq mq1
  have ps0 : 0 ≤ s.rules.weights.slo * m.slo := mul_nonneg hsl ms0
  have ps1 : s.rules.weights.slo * m.slo ≤ s.rules.weights.slo :=
    mul_le_of_le_one_right hsl ms1
  have pc0 : 0 ≤ s.rules.weights.cost * m.cost := mul_nonneg hc mc0
  have pc1 : s.rules.weights.cost * m.cost ≤ s.rules.weights.cost :=
    mul_le_of_le_one_right hc mc1
  have px0 : 0 ≤ s.rules.weights.security * m.security := mul_nonneg hsec msec0
  have px1 : s.rules.weights.security * m.security ≤ s.rules.weights.security :=
    mul_le_of_le_one_right hsec msec1
  have po0 : 0 ≤ s.rules.weights.ops * m.ops := mul_nonneg hop mo0
  have po1 : s.rules.weights.ops * m.ops ≤ s.rules.weights.ops :=
    mul_le_of_le_one_right hop mo1
  have bs0 : 0 ≤ (0.1 : ℚ) * m.slo := mul_nonneg (by norm_num) ms0
  have bs1 : (0.1 : ℚ) * m.slo ≤ 0.1 := mul_le_of_le_one_right (by norm_num) ms1
  have bo0 : 0 ≤ (0.05 : ℚ) * m.ops := mul_nonneg (by norm_num) mo0
  have bo1 : (0.05 : ℚ) * m.ops ≤ 0.05 := mul_le_of_le_one_right (by norm_num) mo1
  rw [calculate_score_eq]
  have hb1 : 0 ≤ (if bp.traffic_profile.latency_sensitive then (0.1 : ℚ) * m.slo else 0)
      ∧ (if bp.traffic_profile.latency_sensitive then (0.1 : ℚ) * m.slo else 0) ≤ 0.1 := by
    split
    · exact ⟨bs0, bs1⟩
    · constructor <;> norm_num
  have hb2 : 0 ≤ (if bp.traffic_profile.global then (0.05 : ℚ) * m.ops else 0)
      ∧ (if bp.traffic_profile.global then (0.05 : ℚ) * m.ops else 0) ≤ 0.05 := by
    split
    · exact ⟨bo0, bo1⟩
    · constructor <;> norm_num
  constructor
  · exact div_nonneg (by linarith [hb1.1, hb2.1]) (by norm_num)
  · exact (div_le_one (by norm_num)).mpr (by linarith [hb1.2, hb2.2])

/-- Inversion of a successful `selectAll`: every category resolved to the
recorded decision, in the fixed source order. -/
theorem selectAll_ok_inv {s : Selector} {bp : Blueprint} {c : Components}
    (h : s.selectAll bp = .ok c) :
    s.select_language bp = .ok c.language
    ∧ s.select_component "backend" bp (some c.language.choice) = .ok c.backend
    ∧ s.select_component "frontend" bp none = .ok c.frontend
    ∧ s.select_database bp = .ok c.database
    ∧ s.select_component "cache" bp none = .ok c.cache
    ∧ s.select_component "queue" bp none = .ok c.queue
    ∧ s.select_ai bp = .ok c.ai
    ∧ s.select_component "infra" bp none = .ok c.infra
    ∧ s.select_component "ci_cd" bp none = .ok c.ci_cd := by
  unfold Selector.selectAll at h
  cases h1 : s.select_language bp with
  | error e => rw [h1] at h; cases h
  | ok lang =>
  rw [h1] at h
  dsimp only at h
  cases h2 : s.select_component "backend" bp (some lang.choice) with
  | error e => rw [h2] at h; cases h
  | ok bk =>
  rw [h2] at h
  dsimp only at h
  cases h3 : s.select_component "frontend" bp none with
  | error e => rw [h3] at h; cases h
  | ok fr =>
  rw [h3] at h
  dsimp only at h
  cases h4 : s.select_database bp with
  | error e => rw [h4] at h; cases h
  | ok db =>
  rw [h4] at h
  dsimp only at h
  cases h5 : s.select_component "cache" bp none with
  | error e => rw [h5] at h; cases h
  | ok ca =>
  rw [h5] at h
  dsimp only at h
  cases h6 : s.select_component "queue" bp none with
  | error e => rw [h6] at h; cases h
  | ok qu =>
  rw [h6] at h
  dsimp only at h
  cases h7 : s.select_ai bp with
  | error e => rw [h7] at h; cases h
  | ok ai =>
  rw [h7] at h
  dsimp only at h
  cases h8 : s.select_component "infra" bp none with
  | error e => rw [h8] at h; cases h
  | ok inf =>
  rw [h8] at h
  dsimp only at h
  cases h9 : s.select_component "ci_cd" bp none with
  | error e => rw [h9] at h; cases h
  | ok ci =>
  rw [h9] at h
  dsimp only at h
  have hc := Except.ok.inj h
  subst hc
  exact ⟨rfl, h2, rfl, rfl, rfl, rfl, rfl, rfl, rfl⟩

/-- C4 (amended): with non-negative weights summing to at most one and
every candidate's metrics in [0,1], every decision of a successfully
returned plan has a score in [0,1]. -/
theorem C4_score_bounds (s : Selector) (bp : Blueprint)
    (hw : weightsBounded s.rules.weights) (hmr : rulesMetricsIn01 s.rules) :
    ((s.select bp).toOption.all fun p =>
      p.decisions.all fun d => decide (0 ≤ d.score) && decide (d.score ≤ 1)) = true := by
  cases hsel : s.select bp with
  | error e => rfl
  | ok p =>
    obtain ⟨c, hall, hp, _⟩ := select_ok_inv hsel
    obtain ⟨h1, h2, h3, h4, h5, h6, h7, h8, h9⟩ := selectAll_ok_inv hall
    subst hp
    show (sortByDesc (fun d => d.score) (componentsList c)).all _ = true
    rw [List.all_eq_true]
    intro d hd
    have hd2 : d ∈ componentsList c := (List.perm_insertionSort _ _).mem_iff.mp hd
    have hbound : 0 ≤ d.score ∧ d.score ≤ 1 := by
      obtain ⟨hm1, hm2, hm3, hm4, hm5, hm6, hm7, hm8, hm9⟩ := hmr
      simp only [componentsList, List.mem_cons, List.not_mem_nil, or_false] at hd2
      rcases hd2 with rfl | rfl | rfl | rfl | rfl | rfl | rfl | rfl | rfl
      · rw [select_language_def] at h1
        obtain ⟨cc, hcc, hsc⟩ := select_best_ok_score h1
        rw [hsc]
        exact calculate_score_bounds s bp _ hw
          (hm1 cc (List.Sublist.mem hcc (languagePool_sublist s.rules bp)))
      · obtain ⟨l0, hl0, cc, hcc, hsc⟩ := select_component_ok_score h2
        rw [hsc]
        exact calculate_score_bounds s bp _ hw (hm2 cc (Option.some.inj hl0 ▸ hcc))
      · obtain ⟨l0, hl0, cc, hcc, hsc⟩ := select_component_ok_score h3
        rw [hsc]
        exact calculate_score_bounds s bp _ hw (hm3 cc (Option.some.inj hl0 ▸ hcc))
      · rw [select_database_def] at h4
        obtain ⟨cc, hcc, hsc⟩ := select_best_ok_score h4
        rw [hsc]
        exact calculate_score_bounds s bp _ hw
          (hm4 cc (List.Sublist.mem hcc (databasePool_sublist s.rules bp)))
      · obtain ⟨l0, hl0, cc, hcc, hsc⟩ := select_component_ok_score h5
        rw [hsc]
        exact calculate_score_bounds s bp _ hw (hm5 cc (Option.some.inj hl0 ▸ hcc))
      · obtain ⟨l0, hl0, cc, hcc, hsc⟩ := select_component_ok_score h6
        rw [hsc]
        exact calculate_score_bounds s bp _ hw (hm6 cc (Option.some.inj hl0 ▸ hcc))
      · obtain ⟨cc, hcc, hsc⟩ := select_ai_ok_score h7
        rw [hsc]
        exact calculate_score_bounds s bp _ hw (hm7 cc hcc)
      · obtain ⟨l0, hl0, cc, hcc, hsc⟩ := select_component_ok_score h8
        rw [hsc]
        exact calculate_score_bounds s bp _ hw (hm8 cc (Option.some.inj hl0 ▸ hcc))
      · obtain ⟨l0, hl0, cc, hcc, hsc⟩ := select_component_ok_score h9
        rw [hsc]
        exact calculate_score_bounds s bp _ hw (hm9 cc (Option.some.inj hl0 ▸ hcc))
    simp [hbound.1, hbound.2]

/-- Witness for C4: the reference fixture satisfies the weight and metric
bounds, and the bounds conclusion holds on it. -/
theorem C4_score_bounds_witness :
    weightsBounded S0.rules.weights ∧ rulesMetricsIn01 S0.rules
    ∧ ((S0.select bp0).toOption.all fun p =>
        p.decisions.all fun d => decide (0 ≤ d.score) && decide (d.score ≤ 1)) = true :=
  ⟨by decide, by decide, C4_score_bounds S0 bp0 (by decide) (by decide)⟩

/-- Counterexample to C4 as stated: all metrics lie in [0,1], but with a
quality weight of 10 the returned plan carries decisions whose score
exceeds 1 — metrics bounds alone do not bound the score. -/
theorem C4_score_bounds_counterexample :
    rulesMetricsIn01 R4
    ∧ ((Selector.mk R4 42).select bp1).toOption.map
        (fun p => p.decisions.all fun d => decide (d.score ≤ 1)) = some false :=
  ⟨by decide, by decide⟩

/-- The constraint check ignores the seed. -/
theorem check_constraints_seed (r : Rules) (d1 d2 : Nat) (c : Candidate) (bp : Blueprint) :
    (Selector.mk r d1).check_constraints c bp = (Selector.mk r d2).check_constraints c bp := rfl

/-- The score ignores the seed. -/
theorem calculate_score_seed (r : Rules) (d1 d2 : Nat) (m : Metrics) (bp : Blueprint) :
    (Selector.mk r d1).calculate_score m bp = (Selector.mk r d2).calculate_score m bp := rfl

/-- The filtered pool ignores the seed. -/
theorem sbPool_seed (r : Rules) (d1 d2 : Nat) (topic : String) (cands : List Candidate)
    (bp : Blueprint) :
    (Selector.mk r d1).sbPool topic cands bp = (Selector.mk r d2).sbPool topic cands bp := by
  unfold Selector.sbPool
  have hf : (fun c => (Selector.mk r d1).check_constraints c bp)
      = (fun c => (Selector.mk r d2).check_constraints c bp) :=
    funext fun c => check_constraints_seed r d1 d2 c bp
  rw [hf]

/-- The sorted scored list ignores the seed. -/
theorem sbSorted_seed (r : Rules) (d1 d2 : Nat) (topic : String) (cands : List Candidate)
    (bp : Blueprint) :
    (Selector.mk r d1).sbSorted topic cands bp = (Selector.mk r d2).sbSorted topic cands bp := by
  unfold Selector.sbSorted
  rw [sbPool_seed r d1 d2 topic cands bp]
  have hm : (fun c => (c, (Selector.mk r d1).calculate_score c.metrics bp))
      = (fun c : Candidate => (c, (Selector.mk r d2).calculate_score c.metrics bp)) :=
    funext fun c => by rw [calculate_score_seed]
  rw [hm]

/-- The tie set ignores the seed. -/
theorem sbTied_seed (r : Rules) (d1 d2 : Nat) (topic : String) (cands : List Candidate)
    (bp : Blueprint) :
    (Selector.mk r d1).sbTied topic cands bp = (Selector.mk r d2).sbTied topic cands bp := by
  unfold Selector.sbTied
  rw [sbSorted_seed r d1 d2 topic cands bp]

/-- The tie width of a pool equals the length of any seed's tie set. -/
theorem tieLenOf_eq (r : Rules) (a : Nat) (bp : Blueprint) (topic : String)
    (pool : List Candidate) :
    tieLenOf r bp topic pool = ((Selector.mk r a).sbTied topic pool bp).length := by
  unfold tieLenOf
  rw [sbTied_seed r 0 a topic pool bp]

/-- Choosing with no tie does not read the seed: the chosen name is the
sorted head for every seed. -/
theorem sbChoice_seed_indep {r : Rules} {topic : String} {cands : List Candidate}
    {bp : Blueprint} (a b : Nat)
    (hti : ((Selector.mk r a).sbTied topic cands bp).length ≤ 1) :
    (Selector.mk r a).sbChoice topic cands bp = (Selector.mk r b).sbChoice topic cands bp := by
  unfold Selector.sbChoice
  have h1 : ¬ ((Selector.mk r a).sbTied topic cands bp).length > 1 := by omega
  have h2 : ¬ ((Selector.mk r b).sbTied topic cands bp).length > 1 := h1
  rw [if_neg h1, if_neg h2]
  exact rfl

/-- With no tie, the whole per-category decision is seed-independent. -/
theorem select_best_seed_indep {r : Rules} {topic : String} {cands : List Candidate}
    {bp : Blueprint} {lang : Option String} (a b : Nat)
    (hti : ((Selector.mk r a).sbTied topic cands bp).length ≤ 1) :
    (Selector.mk r a).select_best topic cands bp lang
      = (Selector.mk r b).select_best topic cands bp lang := by
  have hch := sbChoice_seed_indep a b hti
  have hcho : (Selector.mk r a).sbChosen topic cands bp
      = (Selector.mk r b).sbChosen topic cands bp := by
    unfold Selector.sbChosen
    rw [hch]
    exact rfl
  unfold Selector.select_best
  rw [hch, hcho]
  exact rfl

/-- The AI selection never reads the seed at all. -/
theorem select_ai_seed_indep (r : Rules) (a b : Nat) (bp : Blueprint) :
    (Selector.mk r a).select_ai bp = (Selector.mk r b).select_ai bp := rfl

/-- Inversion of a resolved stack: the categories all resolved and the
stack is assembled from their choices. -/
theorem stackOf_some_inv {s : Selector} {bp : Blueprint} {st : Stack}
    (h : stackOf s bp = some st) :
    ∃ c, s.selectAll bp = .ok c
      ∧ st = { language := c.language.choice, services := none, frontend := c.frontend.choice,
               backend := c.backend.choice, database := c.database.choice,
               cache := c.cache.choice, queue := c.queue.choice, ai := aiChoicesOf c,
               infra := c.infra.choice, ci_cd := c.ci_cd.choice } := by
  unfold stackOf at h
  cases hsel : s.select bp with
  | error e => rw [hsel] at h; cases h
  | ok p =>
    rw [hsel] at h
    obtain ⟨c, hall, hp, _⟩ := select_ok_inv hsel
    refine ⟨c, hall, ?_⟩
    have hst : p.stack = st := Option.some.inj h
    rw [← hst, hp]
    rfl

set_option maxRecDepth 100000 in
set_option maxHeartbeats 1000000 in
/-- C6 (amended): across two runs that differ only in the seed, the
blueprint fingerprint is a function of the blueprint alone; each category
whose pool is seed-independent (language, frontend, database, cache,
queue, infra, ci_cd) keeps its chosen candidate whenever its post-filter
tie set has at most one element; the AI pair never changes; and the
backend keeps its choice whenever the chosen language agrees and the
backend tie set under that language has at most one element.  (The
backend's pool depends on the chosen language, so a language tie can
change the backend without any backend tie — the counterexample.) -/
theorem C6_seed_stability (r : Rules) (a b : Nat) (bp : Blueprint) (st1 st2 : Stack)
    (h1 : stackOf (Selector.mk r a) bp = some st1)
    (h2 : stackOf (Selector.mk r b) bp = some st2) :
    (((Selector.mk r a).select bp).toOption.all
        fun p => p.meta.blueprint_hash == calculate_blueprint_hash (blueprintJson bp)) = true
    ∧ (languageTieLen r bp ≤ 1 → st1.language = st2.language)
    ∧ (tieLenOf r bp "frontend" r.candidates.frontend ≤ 1 → st1.frontend = st2.frontend)
    ∧ (databaseTieLen r bp ≤ 1 → st1.database = st2.database)
    ∧ (tieLenOf r bp "cache" r.candidates.cache ≤ 1 → st1.cache = st2.cache)
    ∧ (tieLenOf r bp "queue" r.candidates.queue ≤ 1 → st1.queue = st2.queue)
    ∧ (tieLenOf r bp "infra" r.candidates.infra ≤ 1 → st1.infra = st2.infra)
    ∧ (tieLenOf r bp "ci_cd" r.candidates.ci_cd ≤ 1 → st1.ci_cd = st2.ci_cd)
    ∧ st1.ai = st2.ai
    ∧ (st1.language = st2.language → backendTieLen r bp st1.language ≤ 1 →
        st1.backend = st2.backend) := by
  obtain ⟨c1, hall1, hst1⟩ := stackOf_some_inv h1
  obtain ⟨c2, hall2, hst2⟩ := stackOf_some_inv h2
  obtain ⟨a1, a2, a3, a4, a5, a6, a7, a8, a9⟩ := selectAll_ok_inv hall1
  obtain ⟨b1, b2, b3, b4, b5, b6, b7, b8, b9⟩ := selectAll_ok_inv hall2
  subst hst1
  subst hst2
  refine ⟨?_, ?_, ?_, ?_, ?_, ?_, ?_, ?_, ?_, ?_⟩
  · cases hsel : (Selector.mk r a).select bp with
    | error e => rfl
    | ok p =>
      obtain ⟨c, hall, hp, _⟩ := select_ok_inv hsel
      subst hp
      show (calculate_blueprint_hash (blueprintJson bp)
        == calculate_blueprint_hash (blueprintJson bp)) = true
      simp
  · intro hle
    unfold languageTieLen at hle
    rw [tieLenOf_eq r a bp "language" (languagePool r bp)] at hle
    have e1 : (Selector.mk r a).select_language bp = (Selector.mk r b).select_language bp := by
      show (Selector.mk r a).select_best "language" (languagePool r bp) bp none
        = (Selector.mk r b).select_best "language" (languagePool r bp) bp none
      exact select_best_seed_indep a b hle
    exact congrArg Decision.choice (Except.ok.inj (a1.symm.trans (e1.trans b1)))
  · intro hle
    rw [tieLenOf_eq r a bp "frontend" r.candidates.frontend] at hle
    have e3 : (Selector.mk r a).select_component "frontend" bp none
        = (Selector.mk r b).select_component "frontend" bp none := by
      show (Selector.mk r a).select_best "frontend" r.candidates.frontend bp none
        = (Selector.mk r b).select_best "frontend" r.candidates.frontend bp none
      exact select_best_seed_indep a b hle
    exact congrArg Decision.choice (Except.ok.inj (a3.symm.trans (e3.trans b3)))
  · intro hle
    unfold databaseTieLen at hle
    rw [tieLenOf_eq r a bp "database" (databasePool r bp)] at hle
    have e4 : (Selector.mk r a).select_database bp = (Selector.mk r b).select_database bp := by
      show (Selector.mk r a).select_best "database" (databasePool r bp) bp none
        = (Selector.mk r b).select_best "database" (databasePool r bp) bp none
      exact select_best_seed_indep a b hle
    exact congrArg Decision.choice (Except.ok.inj (a4.symm.trans (e4.trans b4)))
  · intro hle
    rw [tieLenOf_eq r a bp "cache" r.candidates.cache] at hle
    have e5 : (Selector.mk r a).select_component "cache" bp none
        = (Selector.mk r b).select_component "cache" bp none := by
      show (Selector.mk r a).select_best "cache" r.candidates.cache bp none
        = (Selector.mk r b).select_best "cache" r.candidates.cache bp none
      exact select_best_seed_indep a b hle
    exact congrArg Decision.choice (Except.ok.inj (a5.symm.trans (e5.trans b5)))
  · intro hle
    rw [tieLenOf_eq r a bp "queue" r.candidates.queue] at hle
    have e6 : (Selector.mk r a).select_component "queue" bp none
        = (Selector.mk r b).select_component "queue" bp none := by
      show (Selector.mk r a).select_best "queue" r.candidates.queue bp none
        = (Selector.mk r b).select_best "queue" r.candidates.queue bp none
      exact select_best_seed_indep a b hle
    exact congrArg Decision.choice (Except.ok.inj (a6.symm.trans (e6.trans b6)))
  · intro hle
    rw [tieLenOf_eq r a bp "infra" r.candidates.infra] at hle
    have e8 : (Selector.mk r a).select_component "infra" bp none
        = (Selector.mk r b).select_component "infra" bp none := by
      show (Selector.mk r a).select_best "infra" r.candidates.infra bp none
        = (Selector.mk r b).select_best "infra" r.candidates.infra bp none
      exact select_best_seed_indep a b hle
    exact congrArg Decision.choice (Except.ok.inj (a8.symm.trans (e8.trans b8)))
  · intro hle
    rw [tieLenOf_eq r a bp "ci_cd" r.candidates.ci_cd] at hle
    have e9 : (Selector.mk r a).select_component "ci_cd" bp none
        = (Selector.mk r b).select_component "ci_cd" bp none := by
      show (Selector.mk r a).select_best "ci_cd" r.candidates.ci_cd bp none
        = (Selector.mk r b).select_best "ci_cd" r.candidates.ci_cd bp none
      exact select_best_seed_indep a b hle
    exact congrArg Decision.choice (Except.ok.inj (a9.symm.trans (e9.trans b9)))
  · rw [select_ai_seed_indep r a b bp] at a7
    have hai := Except.ok.inj (a7.symm.trans b7)
    show aiChoicesOf c1 = aiChoicesOf c2
    unfold aiChoicesOf
    rw [hai]
  · intro hlang hle
    have hlc : c1.language.choice = c2.language.choice := hlang
    have hle1 : backendTieLen r bp c1.language.choice ≤ 1 := hle
    rw [hlc] at hle1
    unfold backendTieLen at hle1
    rw [tieLenOf_eq r a bp "backend"
      (langFilter r.candidates.backend (some c2.language.choice))] at hle1
    have e2 : (Selector.mk r a).select_component "backend" bp (some c2.language.choice)
        = (Selector.mk r b).select_component "backend" bp (some c2.language.choice) := by
      show (Selector.mk r a).select_best "backend"
          (langFilter r.candidates.backend (some c2.language.choice)) bp (some c2.language.choice)
        = (Selector.mk r b).select_best "backend"
          (langFilter r.candidates.backend (some c2.language.choice)) bp (some c2.language.choice)
      exact select_best_seed_indep a b hle1
    rw [hlc] at a2
    exact congrArg Decision.choice (Except.ok.inj (a2.symm.trans (e2.trans b2)))

set_option maxRecDepth 100000 in
set_option maxHeartbeats 1000000 in
/-- Witness for C6 at the tie-free reference fixture: seeds 42 and 99
resolve the same stack, and the AI-stability conclusion is instantiated. -/
theorem C6_seed_stability_witness :
    stackOf (Selector.mk R0 42) bp0 = some stackFix0
    ∧ stackOf (Selector.mk R0 99) bp0 = some stackFix0
    ∧ stackFix0.ai = stackFix0.ai :=
  ⟨by decide, by decide,
    (C6_seed_stability R0 42 99 bp0 stackFix0 stackFix0 (by decide)
        (by decide)).2.2.2.2.2.2.2.2.1⟩

set_option maxRecDepth 100000 in
set_option maxHeartbeats 1000000 in
/-- Counterexample to C6 as stated: with two tied languages and one
backend per language, seeds 0 and 4 choose different languages, hence
different backends — while the backend category's admissible tie set is a
singleton (no backend tie) in both runs. -/
theorem C6_seed_stability_counterexample :
    (stackOf (Selector.mk R6 0) bp1).map (fun st => st.language) = some "LangA"
    ∧ (stackOf (Selector.mk R6 4) bp1).map (fun st => st.language) = some "LangB"
    ∧ (stackOf (Selector.mk R6 0) bp1).map (fun st => st.backend) = some "BackA"
    ∧ (stackOf (Selector.mk R6 4) bp1).map (fun st => st.backend) = some "BackB"
    ∧ backendTieLen R6 bp1 "LangA" = 1
    ∧ backendTieLen R6 bp1 "LangB" = 1 :=
  ⟨by decide, by decide, by decide, by decide, by decide, by decide⟩

/-- C1 (amended): the returned plan's estimated monthly cost equals the
sum of the base costs of the chosen backend, frontend, database, cache,
queue, infra and ci_cd candidates plus both chosen AI names — the chosen
language's base cost is not part of the aggregate. -/
theorem C1_cost_total (s : Selector) (bp : Blueprint) :
    ((s.select bp).toOption.map fun p => p.estimated.monthly_cost_usd) =
      ((s.select bp).toOption.map fun p => stackCostSum s p.stack) := by
  cases hsel : s.select bp with
  | error e => rfl
  | ok p =>
    obtain ⟨c, hall, hp, hcap⟩ := select_ok_inv hsel
    subst hp
    rfl

/-- Counterexample to C1 as stated: with a language candidate of base cost
100, the returned estimate (10) differs from the spec-worded sum over
every chosen candidate including the language (110). -/
theorem C1_cost_total_counterexample :
    ((Selector.mk R1 42).select bp1).toOption.map
        (fun p => (p.estimated.monthly_cost_usd, specCostSum (Selector.mk R1 42) p.stack))
      = some (10, 110) := by decide

/-- C2 (amended): with a cost cap set, every returned plan's charged total
(which excludes the chosen language's base cost) is within the cap; when
all categories resolve with a charged total within the cap the call
succeeds, and when the charged total exceeds the cap it fails with exactly
the budget error and no plan. -/
theorem C2_budget_enforcement (s : Selector) (bp : Blueprint) (cap : ℚ)
    (hcap : bp.constraints.monthly_cost_usd_max = some cap) :
    ((s.select bp).toOption.all fun p => decide (p.estimated.monthly_cost_usd ≤ cap)) = true
    ∧ (∀ t, s.selectTotal bp = some t → t ≤ cap → (s.select bp).isOk = true)
    ∧ (∀ t, s.selectTotal bp = some t → cap < t →
        s.select bp = .error (budgetErrorMsg cap)) := by
  have hinv : ∀ t, s.selectTotal bp = some t → ∃ c, s.selectAll bp = .ok c ∧ t = s.totalCost c := by
    intro t ht
    unfold Selector.selectTotal at ht
    cases hall : s.selectAll bp with
    | error e => rw [hall] at ht; cases ht
    | ok c =>
      rw [hall] at ht
      exact ⟨c, rfl, (Option.some.inj ht).symm⟩
  refine ⟨?_, ?_, ?_⟩
  · cases hsel : s.select bp with
    | error e => rfl
    | ok p =>
      obtain ⟨c, hall, hp, hle⟩ := select_ok_inv hsel
      subst hp
      show decide (s.totalCost c ≤ cap) = true
      exact decide_eq_true (hle cap hcap)
  · intro t ht hle
    obtain ⟨c, hall, htc⟩ := hinv t ht
    subst htc
    rw [select_eq_ok hall (fun cap2 hc2 => by rw [hcap] at hc2; cases hc2; exact hle)]
    rfl
  · intro t ht hgt
    obtain ⟨c, hall, htc⟩ := hinv t ht
    subst htc
    exact select_eq_budget_error hall hcap hgt

/-- Witness for C2: on the reference fixture (cap 1000) all categories
resolve with charged total 870, within the cap, and `select` succeeds. -/
theorem C2_budget_enforcement_witness :
    S0.selectTotal bp0 = some 870 ∧ (S0.select bp0).isOk = true :=
  ⟨by decide, (C2_budget_enforcement S0 bp0 1000 rfl).2.1 870 (by decide) (by norm_num)⟩

/-- Counterexample to C2 as stated: cap 100, chosen language costs 60 and
chosen backend 50, so the sum of the chosen candidates' base costs in the
claim's wording is 110, strictly above the cap — yet `select` returns a
plan (the code's aggregate, 50, omits the language). -/
theorem C2_budget_enforcement_counterexample :
    bp2.constraints.monthly_cost_usd_max = some 100
    ∧ ((Selector.mk R2 42).select bp2).toOption.map
        (fun p => specCostSum (Selector.mk R2 42) p.stack) = some 110
    ∧ ((Selector.mk R2 42).select bp2).isOk = true := by
  refine ⟨rfl, by decide, by decide⟩

/-- Unfolding lemma: the success side of `toOption.all`. -/
theorem except_toOption_all_ok {e a : Type} (x : a) (f : a → Bool) :
    ((Except.ok x : Except e a).toOption.all f) = f x := rfl

/-- A predicate with a unique satisfier in a list finds exactly it. -/
theorem find_eq_of_unique {α : Type} (p : α → Bool) (a : α) :
    ∀ l : List α, a ∈ l → p a = true → (∀ x ∈ l, p x = true → x = a) →
      l.find? p = some a := by
  intro l
  induction l with
  | nil => intro ha; cases ha
  | cons x xs ih =>
    intro ha hpa huniq
    by_cases hx : p x = true
    · rw [List.find?_cons_of_pos _ hx]
      exact congrArg some (huniq x (List.mem_cons_self x xs) hx)
    · rw [List.find?_cons_of_neg _ hx]
      rcases List.mem_cons.mp ha with rfl | hmem
      · exact absurd hpa hx
      · exact ih hmem hpa (fun y hy hpy => huniq y (List.mem_cons_of_mem x hy) hpy)

/-- A `select_best` decision carries its topic. -/
theorem select_best_ok_topic {s : Selector} {topic : String} {cands : List Candidate}
    {bp : Blueprint} {lang : Option String} {d : Decision}
    (h : s.select_best topic cands bp lang = .ok d) : d.topic = topic := by
  obtain ⟨_, hd⟩ := select_best_ok_inv h
  rw [hd]

/-- A `select_component` decision carries its topic. -/
theorem select_component_ok_topic {s : Selector} {topic : String} {bp : Blueprint}
    {lang : Option String} {d : Decision}
    (h : s.select_component topic bp lang = .ok d) : d.topic = topic := by
  unfold Selector.select_component at h
  cases hcl : componentList s.rules topic with
  | none => rw [hcl] at h; cases h
  | some l0 => rw [hcl] at h; exact select_best_ok_topic h

/-- The AI decision carries topic `ai`. -/
theorem select_ai_ok_topic {s : Selector} {bp : Blueprint} {d : Decision}
    (h : s.select_ai bp = .ok d) : d.topic = "ai" := by
  obtain ⟨_, hd⟩ := select_ai_ok_inv h
  rw [hd]

/-- When the admissible AI names are distinct, the ranked names are
distinct. -/
theorem aiRanked_names_nodup {s : Selector} {bp : Blueprint}
    (hnd : ((s.rules.candidates.ai.filter fun c => s.check_constraints c bp).map
        fun c => c.name).Nodup) :
    ((s.aiRanked bp).map fun x => x.1).Nodup := by
  have hperm : (s.aiRanked bp).Perm
      ((s.rules.candidates.ai.filter fun c => s.check_constraints c bp).map
        (fun c => (c.name, s.calculate_score c.metrics bp))) := List.perm_insertionSort _ _
  have hmapperm := hperm.map (fun x : String × ℚ => x.1)
  rw [List.map_map] at hmapperm
  exact hmapperm.nodup_iff.mpr hnd

/-- C7 (amended): when the admissible AI names are distinct and the two
chosen names survive the join-then-split on the `", "` separator (which
holds in particular whenever neither contains the separator), the ranked
AI list is sorted by descending score, the stack's AI
pair is the first two ranked names (distinct), the AI decision's choice is
their join and its alternatives the next two names, its score is the
single top candidate's score, and the estimated total charges the sum of
both chosen names' base costs on top of the seven other categories. -/
theorem C7_ai_selection (s : Selector) (bp : Blueprint)
    (hnd : ((s.rules.candidates.ai.filter fun c => s.check_constraints c bp).map
        fun c => c.name).Nodup)
    (hsplit : splitOnModel
        (String.intercalate ", " (((s.aiRanked bp).take 2).map fun x => x.1)) ", "
        = ((s.aiRanked bp).take 2).map fun x => x.1) :
    List.Sorted (keyDescRel fun x : String × ℚ => x.2) (s.aiRanked bp)
    ∧ ((s.select bp).toOption.all fun p =>
        (p.stack.ai == ((s.aiRanked bp).take 2).map fun x => x.1)
        && decide p.stack.ai.Nodup
        && ((p.decisions.find? fun d => d.topic == "ai").any fun d =>
              (d.choice == String.intercalate ", "
                  (((s.aiRanked bp).take 2).map fun x => x.1))
              && (d.alternatives == (((s.aiRanked bp).drop 2).take 2).map fun x => x.1)
              && decide (d.score = ((s.aiRanked bp).headD ("", 0)).2))
        && decide (p.estimated.monthly_cost_usd
              = nonAiStackCost s p.stack
                + (p.stack.ai.map fun a => s.get_component_cost "ai" a).sum)) = true := by
  constructor
  · exact List.sorted_insertionSort _ _
  · cases hsel : s.select bp with
    | error e => rfl
    | ok p =>
      obtain ⟨c, hall, hp, _⟩ := select_ok_inv hsel
      obtain ⟨h1, h2, h3, h4, h5, h6, h7, h8, h9⟩ := selectAll_ok_inv hall
      obtain ⟨hne, hai⟩ := select_ai_ok_inv h7
      subst hp
      have hstai : aiChoicesOf c = ((s.aiRanked bp).take 2).map (fun x => x.1) := by
        unfold aiChoicesOf
        rw [hai]
        exact hsplit
      have hA : (s.buildPlan bp (sortByDesc (fun d => d.score) (componentsList c)) c
          (s.totalCost c)).stack.ai = ((s.aiRanked bp).take 2).map (fun x => x.1) := hstai
      rw [except_toOption_all_ok]
      rw [hA]
      have ht1 : c.language.topic = "language" := by
        rw [select_language_def] at h1
        exact select_best_ok_topic h1
      have ht2 : c.backend.topic = "backend" := select_component_ok_topic h2
      have ht3 : c.frontend.topic = "frontend" := select_component_ok_topic h3
      have ht4 : c.database.topic = "database" := by
        rw [select_database_def] at h4
        exact select_best_ok_topic h4
      have ht5 : c.cache.topic = "cache" := select_component_ok_topic h5
      have ht6 : c.queue.topic = "queue" := select_component_ok_topic h6
      have ht7 : c.ai.topic = "ai" := select_ai_ok_topic h7
      have ht8 : c.infra.topic = "infra" := select_component_ok_topic h8
      have ht9 : c.ci_cd.topic = "ci_cd" := select_component_ok_topic h9
      have hfind : (sortByDesc (fun d => d.score) (componentsList c)).find?
          (fun d => d.topic == "ai") = some c.ai := by
        apply find_eq_of_unique
        · exact (List.perm_insertionSort _ _).mem_iff.mpr (by simp [componentsList])
        · rw [ht7]
          simp
        · intro x hx hpx
          have hx2 : x ∈ componentsList c := (List.perm_insertionSort _ _).mem_iff.mp hx
          simp only [componentsList, List.mem_cons, List.not_mem_nil, or_false] at hx2
          rcases hx2 with rfl | rfl | rfl | rfl | rfl | rfl | rfl | rfl | rfl
          · rw [ht1] at hpx; exact absurd hpx (by decide)
          · rw [ht2] at hpx; exact absurd hpx (by decide)
          · rw [ht3] at hpx; exact absurd hpx (by decide)
          · rw [ht4] at hpx; exact absurd hpx (by decide)
          · rw [ht5] at hpx; exact absurd hpx (by decide)
          · rw [ht6] at hpx; exact absurd hpx (by decide)
          · rfl
          · rw [ht8] at hpx; exact absurd hpx (by decide)
          · rw [ht9] at hpx; exact absurd hpx (by decide)
      have hdec : ((s.buildPlan bp (sortByDesc (fun d => d.score) (componentsList c)) c
          (s.totalCost c)).decisions.find? fun d => d.topic == "ai") = some c.ai := hfind
      rw [hdec]
      have hnodup2 : (((s.aiRanked bp).take 2).map (fun x => x.1)).Nodup := by
        rw [List.map_take]
        exact List.Nodup.sublist (List.take_sublist 2 _) (aiRanked_names_nodup hnd)
      have hcost : (s.buildPlan bp (sortByDesc (fun d => d.score) (componentsList c)) c
            (s.totalCost c)).estimated.monthly_cost_usd
          = nonAiStackCost s (s.buildPlan bp (sortByDesc (fun d => d.score)
              (componentsList c)) c (s.totalCost c)).stack
            + ((((s.aiRanked bp).take 2).map fun x => x.1).map
                fun a => s.get_component_cost "ai" a).sum := by
        rw [← hstai]
        show s.totalCost c
          = nonAiStackCost s (s.buildPlan bp (sortByDesc (fun d => d.score)
              (componentsList c)) c (s.totalCost c)).stack
            + ((aiChoicesOf c).map fun a => s.get_component_cost "ai" a).sum
        have hrhs : nonAiStackCost s (s.buildPlan bp (sortByDesc (fun d => d.score)
            (componentsList c)) c (s.totalCost c)).stack
            = s.get_component_cost "backend" c.backend.choice
              + s.get_component_cost "frontend" c.frontend.choice
              + s.get_component_cost "database" c.database.choice
              + s.get_component_cost "cache" c.cache.choice
              + s.get_component_cost "queue" c.queue.choice
              + s.get_component_cost "infra" c.infra.choice
              + s.get_component_cost "ci_cd" c.ci_cd.choice := rfl
        rw [hrhs]
        unfold Selector.totalCost
        ring
      rw [hai]
      simp only [Bool.and_eq_true, beq_self_eq_true, decide_eq_true_eq, Option.any_some]
      refine ⟨⟨⟨trivial, hnodup2⟩, ?_⟩, hcost⟩
      simp

/-- Witness for C7 at the reference fixture: the admissible AI names are
distinct, the split-of-join round trip holds, and the AI conclusions hold
on the returned plan. -/
theorem C7_ai_selection_witness :
    ((S0.rules.candidates.ai.filter fun c => S0.check_constraints c bp0).map
        fun c => c.name).Nodup
    ∧ splitOnModel
        (String.intercalate ", " (((S0.aiRanked bp0).take 2).map fun x => x.1)) ", "
        = ((S0.aiRanked bp0).take 2).map (fun x => x.1)
    ∧ ((S0.select bp0).toOption.all fun p =>
        (p.stack.ai == ((S0.aiRanked bp0).take 2).map fun x => x.1)
        && decide p.stack.ai.Nodup
        && ((p.decisions.find? fun d => d.topic == "ai").any fun d =>
              (d.choice == String.intercalate ", "
                  (((S0.aiRanked bp0).take 2).map fun x => x.1))
              && (d.alternatives == (((S0.aiRanked bp0).drop 2).take 2).map fun x => x.1)
              && decide (d.score = ((S0.aiRanked bp0).headD ("", 0)).2))
        && decide (p.estimated.monthly_cost_usd
              = nonAiStackCost S0 p.stack
                + (p.stack.ai.map fun a => S0.get_component_cost "ai" a).sum)) = true :=
  ⟨by decide, by decide, (C7_ai_selection S0 bp0 (by decide) (by decide)).2⟩

/-- Counterexample to C7 as stated: with the admissible AI candidate
`"Alpha, Beta"` (base cost 30) ranked top and `"Gamma"` (base cost 7)
second, the returned stack's AI list holds the three split fragments
rather than the two chosen names, and the estimate (527) charges the
fragments — only `"Gamma"` is in the catalog — instead of the non-AI
stack cost (520) plus the sum of both chosen names' base costs (557). -/
theorem C7_ai_selection_counterexample :
    ((((Selector.mk R7 42).aiRanked bp0).take 2).map fun x => x.1)
      = ["Alpha, Beta", "Gamma"]
    ∧ (((Selector.mk R7 42).select bp0).toOption.map fun p =>
        (p.stack.ai,
         p.estimated.monthly_cost_usd,
         nonAiStackCost (Selector.mk R7 42) p.stack
           + (((((Selector.mk R7 42).aiRanked bp0).take 2).map fun x => x.1).map
               fun a => (Selector.mk R7 42).get_component_cost "ai" a).sum))
      = some (["Alpha", "Beta", "Gamma"], 527, 557)
    ∧ ["Alpha", "Beta", "Gamma"] ≠ ["Alpha, Beta", "Gamma"]
    ∧ (527 : ℚ) ≠ 557 := by
  refine ⟨by decide, by decide, by decide, by decide⟩

/-- The constraint check reads the blueprint only through `constraints`. -/
theorem check_constraints_bp_congr (s : Selector) (c : Candidate) {bp1 bp2 : Blueprint}
    (hc : bp1.constraints = bp2.constraints) :
    s.check_constraints c bp1 = s.check_constraints c bp2 := by
  unfold Selector.check_constraints
  rw [hc]

/-- The score reads the blueprint only through `traffic_profile`. -/
theorem calculate_score_bp_congr (s : Selector) (m : Metrics) {bp1 bp2 : Blueprint}
    (ht : bp1.traffic_profile = bp2.traffic_profile) :
    s.calculate_score m bp1 = s.calculate_score m bp2 := by
  unfold Selector.calculate_score
  rw [ht]

/-- The reasons read the blueprint only through `traffic_profile` and
`constraints`. -/
theorem sbReasons_bp_congr (topic : String) (lang : Option String) {bp1 bp2 : Blueprint}
    (hc : bp1.constraints = bp2.constraints) (ht : bp1.traffic_profile = bp2.traffic_profile)
    (chosen : Candidate × ℚ) :
    sbReasons topic lang bp1 chosen = sbReasons topic lang bp2 chosen := by
  unfold sbReasons
  rw [hc, ht]

/-- Preference filtering reads the blueprint only through `prefView`. -/
theorem applyPrefs_eq_view (bp : Blueprint) (topic : String) (l : List Candidate) :
    applyPrefs bp topic l =
      (match prefView bp topic with
       | some pref_names =>
         let preferred := l.filter (fun c => pref_names.contains c.name)
         if preferred.isEmpty = true then l else preferred
       | none => l) := by
  unfold applyPrefs prefView
  cases bp.prefs with
  | none => rfl
  | some p => rfl

/-- Two blueprints with the same preference view filter identically. -/
theorem applyPrefs_bp_congr (topic : String) (l : List Candidate) {bp1 bp2 : Blueprint}
    (hp : prefView bp1 topic = prefView bp2 topic) :
    applyPrefs bp1 topic l = applyPrefs bp2 topic l := by
  rw [applyPrefs_eq_view, applyPrefs_eq_view, hp]

/-- `select_best` reads the blueprint only through constraints, traffic
profile and the topic's preference view. -/
theorem select_best_bp_congr (s : Selector) (topic : String) (cands : List Candidate)
    (lang : Option String) {bp1 bp2 : Blueprint}
    (hc : bp1.constraints = bp2.constraints) (ht : bp1.traffic_profile = bp2.traffic_profile)
    (hp : prefView bp1 topic = prefView bp2 topic) :
    s.select_best topic cands bp1 lang = s.select_best topic cands bp2 lang := by
  have hcc : (fun c => s.check_constraints c bp1) = (fun c => s.check_constraints c bp2) :=
    funext fun c => check_constraints_bp_congr s c hc
  have hpool : s.sbPool topic cands bp1 = s.sbPool topic cands bp2 := by
    unfold Selector.sbPool
    rw [hcc, applyPrefs_bp_congr topic _ hp]
  have hscore : (fun c : Candidate => (c, s.calculate_score c.metrics bp1))
      = (fun c => (c, s.calculate_score c.metrics bp2)) :=
    funext fun c => by rw [calculate_score_bp_congr s _ ht]
  have hsorted : s.sbSorted topic cands bp1 = s.sbSorted topic cands bp2 := by
    unfold Selector.sbSorted
    rw [hpool, hscore]
  have htied : s.sbTied topic cands bp1 = s.sbTied topic cands bp2 := by
    unfold Selector.sbTied
    rw [hsorted]
  have hchoice : s.sbChoice topic cands bp1 = s.sbChoice topic cands bp2 := by
    unfold Selector.sbChoice
    rw [htied, hsorted]
  have hchosen : s.sbChosen topic cands bp1 = s.sbChosen topic cands bp2 := by
    unfold Selector.sbChosen
    rw [hsorted, hchoice]
  unfold Selector.select_best
  rw [hpool, hsorted, hchoice, hchosen, sbReasons_bp_congr topic lang hc ht]

/-- No preference list is consulted for the language category. -/
theorem prefView_language (bp : Blueprint) : prefView bp "language" = none := by
  unfold prefView
  cases bp.prefs with
  | none => rfl
  | some p => rfl

/-- No preference list is consulted for the cache category. -/
theorem prefView_cache (bp : Blueprint) : prefView bp "cache" = none := by
  unfold prefView
  cases bp.prefs with
  | none => rfl
  | some p => rfl

/-- No preference list is consulted for the queue category. -/
theorem prefView_queue (bp : Blueprint) : prefView bp "queue" = none := by
  unfold prefView
  cases bp.prefs with
  | none => rfl
  | some p => rfl

/-- No preference list is consulted for the infra category. -/
theorem prefView_infra (bp : Blueprint) : prefView bp "infra" = none := by
  unfold prefView
  cases bp.prefs with
  | none => rfl
  | some p => rfl

/-- No preference list is consulted for the ci_cd category. -/
theorem prefView_ci_cd (bp : Blueprint) : prefView bp "ci_cd" = none := by
  unfold prefView
  cases bp.prefs with
  | none => rfl
  | some p => rfl

/-- `select_component` congruence in the blueprint. -/
theorem select_component_bp_congr (s : Selector) (topic : String) (lang : Option String)
    {bp1 bp2 : Blueprint}
    (hc : bp1.constraints = bp2.constraints) (ht : bp1.traffic_profile = bp2.traffic_profile)
    (hp : prefView bp1 topic = prefView bp2 topic) :
    s.select_component topic bp1 lang = s.select_component topic bp2 lang := by
  unfold Selector.select_component
  cases componentList s.rules topic with
  | none => rfl
  | some l0 => exact select_best_bp_congr s topic _ lang hc ht hp

/-- `select_ai` never reads the preference lists. -/
theorem select_ai_bp_congr (s : Selector) {bp1 bp2 : Blueprint}
    (hc : bp1.constraints = bp2.constraints) (ht : bp1.traffic_profile = bp2.traffic_profile) :
    s.select_ai bp1 = s.select_ai bp2 := by
  have hcc : (fun c => s.check_constraints c bp1) = (fun c => s.check_constraints c bp2) :=
    funext fun c => check_constraints_bp_congr s c hc
  have hscore : (fun c : Candidate => (c.name, s.calculate_score c.metrics bp1))
      = (fun c => (c.name, s.calculate_score c.metrics bp2)) :=
    funext fun c => by rw [calculate_score_bp_congr s _ ht]
  have hranked : s.aiRanked bp1 = s.aiRanked bp2 := by
    unfold Selector.aiRanked
    rw [hcc, hscore]
  unfold Selector.select_ai
  rw [hranked]

/-- The whole category pipeline reads the blueprint only through its
constraints, traffic profile, language mode and the frontend, backend and
database preference views — never the AI preference list. -/
theorem selectAll_bp_congr (s : Selector) {bp1 bp2 : Blueprint}
    (hc : bp1.constraints = bp2.constraints) (ht : bp1.traffic_profile = bp2.traffic_profile)
    (hm : bp1.single_language_mode = bp2.single_language_mode)
    (hpf : prefView bp1 "frontend" = prefView bp2 "frontend")
    (hpb : prefView bp1 "backend" = prefView bp2 "backend")
    (hpd : prefView bp1 "database" = prefView bp2 "database") :
    s.selectAll bp1 = s.selectAll bp2 := by
  have hl : s.select_language bp1 = s.select_language bp2 := by
    rw [select_language_def, select_language_def]
    have hpool : languagePool s.rules bp1 = languagePool s.rules bp2 := by
      unfold languagePool
      rw [hm]
    rw [hpool]
    exact select_best_bp_congr s "language" _ none hc ht
      (by rw [prefView_language, prefView_language])
  have hdbp : s.select_database bp1 = s.select_database bp2 := by
    rw [select_database_def, select_database_def]
    have hpool : databasePool s.rules bp1 = databasePool s.rules bp2 := by
      unfold databasePool
      rw [hc]
    rw [hpool]
    exact select_best_bp_congr s "database" _ none hc ht hpd
  unfold Selector.selectAll
  rw [hl]
  cases s.select_language bp2 with
  | error e => rfl
  | ok lang =>
  dsimp only
  rw [select_component_bp_congr s "backend" (some lang.choice) hc ht hpb]
  cases s.select_component "backend" bp2 (some lang.choice) with
  | error e => rfl
  | ok bk =>
  dsimp only
  rw [select_component_bp_congr s "frontend" none hc ht hpf]
  cases s.select_component "frontend" bp2 none with
  | error e => rfl
  | ok fr =>
  dsimp only
  rw [hdbp]
  cases s.select_database bp2 with
  | error e => rfl
  | ok db =>
  dsimp only
  rw [select_component_bp_congr s "cache" none hc ht (by rw [prefView_cache, prefView_cache])]
  cases s.select_component "cache" bp2 none with
  | error e => rfl
  | ok ca =>
  dsimp only
  rw [select_component_bp_congr s "queue" none hc ht (by rw [prefView_queue, prefView_queue])]
  cases s.select_component "queue" bp2 none with
  | error e => rfl
  | ok qu =>
  dsimp only
  rw [select_ai_bp_congr s hc ht]
  cases s.select_ai bp2 with
  | error e => rfl
  | ok ai =>
  dsimp only
  rw [select_component_bp_congr s "infra" none hc ht (by rw [prefView_infra, prefView_infra])]
  cases s.select_component "infra" bp2 none with
  | error e => rfl
  | ok inf =>
  dsimp only
  rw [select_component_bp_congr s "ci_cd" none hc ht (by rw [prefView_ci_cd, prefView_ci_cd])]

set_option maxRecDepth 100000 in
set_option maxHeartbeats 2000000 in
/-- C10: two blueprints identical except in the `prefs.ai` field (stated
as agreement of everything but the AI preference view) produce plans with
identical decisions, stack and estimated cost — the AI preference list
never influences selection, since only `select_best` applies preference
filtering and the AI category bypasses it. -/
theorem C10_ai_prefs_inert (r : Rules) (seed : Nat) (bp : Blueprint) (p q : Option Preferences)
    (hf : prefView { bp with prefs := p } "frontend" = prefView { bp with prefs := q } "frontend")
    (hb : prefView { bp with prefs := p } "backend" = prefView { bp with prefs := q } "backend")
    (hd : prefView { bp with prefs := p } "database"
        = prefView { bp with prefs := q } "database") :
    ((Selector.mk r seed).select { bp with prefs := p }).map
        (fun pl => (pl.decisions, pl.stack, pl.estimated))
      = ((Selector.mk r seed).select { bp with prefs := q }).map
        (fun pl => (pl.decisions, pl.stack, pl.estimated)) := by
  have hall : (Selector.mk r seed).selectAll { bp with prefs := p }
      = (Selector.mk r seed).selectAll { bp with prefs := q } :=
    selectAll_bp_congr _ rfl rfl rfl hf hb hd
  have hcap : ({ bp with prefs := p } : Blueprint).constraints.monthly_cost_usd_max
      = ({ bp with prefs := q } : Blueprint).constraints.monthly_cost_usd_max := rfl
  cases hall2 : (Selector.mk r seed).selectAll { bp with prefs := q } with
  | error e => rw [select_eq_err (hall.trans hall2), select_eq_err hall2]
  | ok c =>
    have h1 : (Selector.mk r seed).selectAll { bp with prefs := p } = .ok c := hall.trans hall2
    cases hm2 : ({ bp with prefs := q } : Blueprint).constraints.monthly_cost_usd_max with
    | none =>
      have hok1 : ∀ cap, ({ bp with prefs := p } : Blueprint).constraints.monthly_cost_usd_max
          = some cap → (Selector.mk r seed).totalCost c ≤ cap := by
        intro cap hcl
        rw [hcap, hm2] at hcl
        cases hcl
      have hok2 : ∀ cap, ({ bp with prefs := q } : Blueprint).constraints.monthly_cost_usd_max
          = some cap → (Selector.mk r seed).totalCost c ≤ cap := by
        intro cap hcl
        rw [hm2] at hcl
        cases hcl
      rw [select_eq_ok h1 hok1, select_eq_ok hall2 hok2, except_map_ok, except_map_ok,
        buildPlan_decisions, buildPlan_decisions, buildPlan_stack, buildPlan_stack,
        buildPlan_estimated, buildPlan_estimated]
    | some cap =>
      by_cases hlt : cap < (Selector.mk r seed).totalCost c
      · rw [select_eq_budget_error h1 (hcap.trans hm2) hlt,
          select_eq_budget_error hall2 hm2 hlt]
      · have hok1 : ∀ cap2, ({ bp with prefs := p } : Blueprint).constraints.monthly_cost_usd_max
            = some cap2 → (Selector.mk r seed).totalCost c ≤ cap2 := by
          intro cap2 hcl
          rw [hcap, hm2] at hcl
          cases Option.some.inj hcl
          exact not_lt.mp hlt
        have hok2 : ∀ cap2, ({ bp with prefs := q } : Blueprint).constraints.monthly_cost_usd_max
            = some cap2 → (Selector.mk r seed).totalCost c ≤ cap2 := by
          intro cap2 hcl
          rw [hm2] at hcl
          cases Option.some.inj hcl
          exact not_lt.mp hlt
        rw [select_eq_ok h1 hok1, select_eq_ok hall2 hok2, except_map_ok, except_map_ok,
          buildPlan_decisions, buildPlan_decisions, buildPlan_stack, buildPlan_stack,
          buildPlan_estimated, buildPlan_estimated]

/-- Witness for C10: a blueprint with no preferences at all against the
same blueprint carrying only an AI preference list — the preference views
agree and the projected results coincide. -/
theorem C10_ai_prefs_inert_witness :
    prefView { bp0 with prefs := none } "frontend"
        = prefView { bp0 with prefs := some prefsAiOnly } "frontend"
    ∧ prefView { bp0 with prefs := none } "backend"
        = prefView { bp0 with prefs := some prefsAiOnly } "backend"
    ∧ prefView { bp0 with prefs := none } "database"
        = prefView { bp0 with prefs := some prefsAiOnly } "database"
    ∧ ((Selector.mk R0 42).select { bp0 with prefs := none }).map
        (fun pl => (pl.decisions, pl.stack, pl.estimated))
      = ((Selector.mk R0 42).select { bp0 with prefs := some prefsAiOnly }).map
        (fun pl => (pl.decisions, pl.stack, pl.estimated)) :=
  ⟨rfl, rfl, rfl, C10_ai_prefs_inert R0 42 bp0 none (some prefsAiOnly) rfl rfl rfl⟩

end Runeforge
